import Mathlib

/-!
Verification of the quattro4maggi animation-experiments repository.

This file gives a shallow embedding of the numeric/geometric core of the
repository and proves the frozen claims about it:

* the metal color presets and helpers of `src/lib/shaders/ColorsLiquidMetal.tsx`
  (`METAL_PRESETS`, `getMetalColors`, `interpolateMetalColors`);
* the ring clip-path geometry and uniform color stops of
  `src/components/live-border-card/ColorWheels.tsx`
  (`SkiaRingBorder` / `SkiaRingGlow` clip paths, `createUniformColorStops`);
* the two SkSL shader programs, `liquidMetalShader`
  (`src/lib/theme/Colors.ts`) and `sensorLiquidMetalShader`
  (`src/lib/shaders/SensorLiquidMetal.ts`): their noise generators
  (`snoise`, `perlinNoise`), shape edge evaluator (`getShapeEdge`),
  stripe compositor (`getColorChanges`) and `main` entry points.

TypeScript numeric helpers are modelled over `ℚ` (their arithmetic is
field arithmetic); the shader math, which uses `sin`, `cos`, `sqrt` and
`pow`, is modelled over `ℝ`.
-/

namespace Quattro

/-! ## Metal color presets (`src/lib/shaders/ColorsLiquidMetal.tsx`) -/

/-- RGB color as `[R, G, B]`, values 0-1. -/
structure RGB where
  r : ℚ
  g : ℚ
  b : ℚ
deriving DecidableEq, Repr

/-- Metal color definition with highlight and shadow. -/
structure MetalColors where
  highlight : RGB
  shadow : RGB
deriving DecidableEq, Repr

/-- Available metal preset names, `'custom'` excluded. -/
inductive MetalPresetName where
  | silver | gold | copper | roseGold | bronze
  | platinum | chrome | titanium | brass
deriving DecidableEq, Repr, Fintype

/-- The `METAL_PRESETS` table of `ColorsLiquidMetal.tsx`. -/
def METAL_PRESETS : MetalPresetName → MetalColors
  | .silver   => ⟨⟨0.98, 0.98, 1.0⟩, ⟨0.10, 0.10, 0.10⟩⟩
  | .gold     => ⟨⟨1.0, 0.84, 0.0⟩, ⟨0.40, 0.25, 0.0⟩⟩
  | .copper   => ⟨⟨0.72, 0.45, 0.20⟩, ⟨0.25, 0.12, 0.05⟩⟩
  | .roseGold => ⟨⟨0.98, 0.76, 0.70⟩, ⟨0.35, 0.15, 0.12⟩⟩
  | .bronze   => ⟨⟨0.80, 0.50, 0.20⟩, ⟨0.30, 0.15, 0.05⟩⟩
  | .platinum => ⟨⟨0.90, 0.89, 0.88⟩, ⟨0.15, 0.15, 0.17⟩⟩
  | .chrome   => ⟨⟨1.0, 1.0, 1.0⟩, ⟨0.05, 0.05, 0.05⟩⟩
  | .titanium => ⟨⟨0.62, 0.62, 0.65⟩, ⟨0.12, 0.12, 0.15⟩⟩
  | .brass    => ⟨⟨0.95, 0.80, 0.30⟩, ⟨0.35, 0.28, 0.08⟩⟩

/-- Argument to `getMetalColors`: a preset name, or `'custom'`. -/
inductive PresetArg where
  | preset (name : MetalPresetName)
  | custom
deriving DecidableEq, Repr

/-- `getMetalColors` of `ColorsLiquidMetal.tsx`.  The TS function takes the
preset name plus optional `customHighlight` / `customShadow`; the
`console.warn` side effect on the custom fallback path is modelled as the
`Bool` in the returned pair (`true` means a warning was emitted). -/
def getMetalColors (preset : PresetArg) (customHighlight customShadow : Option RGB) :
    MetalColors × Bool :=
  match preset with
  | .custom =>
    match customHighlight, customShadow with
    | some h, some s => (⟨h, s⟩, false)
    | _, _ => (METAL_PRESETS .silver, true)
  | .preset name => (METAL_PRESETS name, false)

/-- The local `lerp` of `interpolateMetalColors`. -/
def lerp (a b t : ℚ) : ℚ := a + (b - a) * t

/-- `interpolateMetalColors` of `ColorsLiquidMetal.tsx`. -/
def interpolateMetalColors (from_ to_ : MetalPresetName) (t : ℚ) : MetalColors :=
  let fromColors := METAL_PRESETS from_
  let toColors := METAL_PRESETS to_
  { highlight :=
      ⟨lerp fromColors.highlight.r toColors.highlight.r t,
       lerp fromColors.highlight.g toColors.highlight.g t,
       lerp fromColors.highlight.b toColors.highlight.b t⟩,
    shadow :=
      ⟨lerp fromColors.shadow.r toColors.shadow.r t,
       lerp fromColors.shadow.g toColors.shadow.g t,
       lerp fromColors.shadow.b toColors.shadow.b t⟩ }

/-! ## Uniform color stops (`ColorWheels.tsx`, two identical copies) -/

/-- `createUniformColorStops` of `ColorWheels.tsx`: each input color is
pushed twice, with positions `i/n` and `(i+1)/n`.  The TS function builds
the two arrays with a `forEach` over the indexed colors. -/
def createUniformColorStops (colors : List String) : List String × List ℚ :=
  let n : ℚ := colors.length
  (colors.enum.foldr (fun (ic : ℕ × String) acc => ic.2 :: ic.2 :: acc) [],
   colors.enum.foldr (fun (ic : ℕ × String) acc =>
     ((ic.1 : ℚ) / n) :: (((ic.1 : ℚ) + 1) / n) :: acc) [])

/-! ## Ring clip path geometry (`ColorWheels.tsx`) -/

/-- A rounded rectangle as passed to `Skia.RRectXY(Skia.XYWHRect(x,y,w,h),r,r)`. -/
structure RRect where
  x : ℚ
  y : ℚ
  w : ℚ
  h : ℚ
  r : ℚ
deriving DecidableEq, Repr

/-- The outer and inner rounded rectangles of the `SkiaRingBorder` clip
path (`useMemo` in `ColorWheels.tsx`): outer at `(0,0,width,height)` with
`borderRadius`, inner inset by `strokeWidth` with
`innerRadius = max(0, borderRadius - strokeWidth)`.  The ring path is
their boolean difference. -/
def ringBorderClipRects (width height borderRadius strokeWidth : ℚ) : RRect × RRect :=
  let outerRect : RRect := ⟨0, 0, width, height, borderRadius⟩
  let innerRadius := max 0 (borderRadius - strokeWidth)
  let innerRect : RRect :=
    ⟨strokeWidth, strokeWidth, width - strokeWidth * 2, height - strokeWidth * 2, innerRadius⟩
  (outerRect, innerRect)

/-- The outer and inner rounded rectangles of the `SkiaRingGlow` clip path:
same construction shifted by the canvas padding offset `(offsetX, offsetY)`. -/
def ringGlowClipRects (width height borderRadius strokeWidth offsetX offsetY : ℚ) :
    RRect × RRect :=
  let outerRect : RRect := ⟨offsetX, offsetY, width, height, borderRadius⟩
  let innerRadius := max 0 (borderRadius - strokeWidth)
  let innerRect : RRect :=
    ⟨offsetX + strokeWidth, offsetY + strokeWidth,
     width - strokeWidth * 2, height - strokeWidth * 2, innerRadius⟩
  (outerRect, innerRect)

/-! ## SkSL vector types and built-ins

The shader programs are SkSL source strings; their math is modelled over
`ℝ`.  `pow` is `Real.rpow`, `length` is the euclidean norm, `floor`,
`fract` and `mod` follow the GLSL definitions. -/

/-- `float2`. -/
structure Vec2 where
  x : ℝ
  y : ℝ

/-- `float3`.  Also used for RGB triples (`.x/.y/.z` = `.r/.g/.b`). -/
structure Vec3 where
  x : ℝ
  y : ℝ
  z : ℝ

/-- `float4` as an RGBA color. -/
structure Vec4 where
  r : ℝ
  g : ℝ
  b : ℝ
  a : ℝ

noncomputable section

open Real

/-- GLSL `floor` on floats. -/
def gfloor (x : ℝ) : ℝ := ⌊x⌋

/-- GLSL `fract(x) = x - floor(x)`. -/
def fract (x : ℝ) : ℝ := x - gfloor x

/-- GLSL `mod(x, y) = x - y * floor(x / y)`. -/
def gmod (x y : ℝ) : ℝ := x - y * gfloor (x / y)

/-- GLSL `clamp(x, lo, hi) = min(max(x, lo), hi)`. -/
def clamp (x lo hi : ℝ) : ℝ := min (max x lo) hi

/-- GLSL `mix(a, b, t) = a * (1 - t) + b * t`. -/
def mix (a b t : ℝ) : ℝ := a * (1 - t) + b * t

/-- GLSL `smoothstep(e0, e1, x)`: Hermite interpolation of the clamped
ramp `(x - e0) / (e1 - e0)`. -/
def smoothstep (e0 e1 x : ℝ) : ℝ :=
  let t := clamp ((x - e0) / (e1 - e0)) 0 1
  t * t * (3 - 2 * t)

/-- GLSL `length(float2)`. -/
def glength (v : Vec2) : ℝ := Real.sqrt (v.x * v.x + v.y * v.y)

/-- GLSL two-argument `atan(y, x)`. -/
def atan2 (y x : ℝ) : ℝ :=
  if 0 < x then Real.arctan (y / x)
  else if x < 0 then
    (if 0 ≤ y then Real.arctan (y / x) + π else Real.arctan (y / x) - π)
  else
    (if 0 < y then π / 2 else if y < 0 then -(π / 2) else 0)

/-- The `rotate` helper, identical in both shader variants. -/
def rotate (v : Vec2) (a : ℝ) : Vec2 :=
  let c := Real.cos a
  let s := Real.sin a
  ⟨v.x * c - v.y * s, v.x * s + v.y * c⟩

/-! ## Stripe compositor `getColorChanges`

The function is identical in both shader variants, except that
`liquidMetalShader` reads the final blend weight from the global uniform
`iColorTint.a` while `sensorLiquidMetalShader` receives it as the
parameter `tintAlpha`; here the weight is always the explicit argument
`tintAlpha`. -/

/-- The color-burn denominator guard `max(tint, 0.0001)` of
`getColorChanges`. -/
def tintGuard (tint : ℝ) : ℝ := max tint 0.0001

/-- `getColorChanges` of both shader variants (`Colors.ts` lines 150-174,
`SensorLiquidMetal.ts` lines 106-128). -/
def getColorChanges (c1 c2 stripe_p : ℝ) (w : Vec3) (blur bump tint tintAlpha : ℝ) : ℝ :=
  let ch0 := mix c2 c1 (smoothstep 0 (2 * blur) stripe_p)
  let border1 := w.x
  let ch1 := mix ch0 c2 (smoothstep border1 (border1 + 2 * blur) stripe_p)
  let bump' := smoothstep 0.2 0.8 bump
  let border2 := w.x + 0.4 * (1 - bump') * w.y
  let ch2 := mix ch1 c1 (smoothstep border2 (border2 + 2 * blur) stripe_p)
  let border3 := w.x + 0.5 * (1 - bump') * w.y
  let ch3 := mix ch2 c2 (smoothstep border3 (border3 + 2 * blur) stripe_p)
  let border4 := w.x + w.y
  let ch4 := mix ch3 c1 (smoothstep border4 (border4 + 2 * blur) stripe_p)
  let gradient_t := (stripe_p - w.x - w.y) / w.z
  let gradient := mix c1 c2 (smoothstep 0 1 gradient_t)
  let ch5 := mix ch4 gradient (smoothstep border4 (border4 + 0.5 * blur) stripe_p)
  mix ch5 (1 - min 1 ((1 - ch5) / tintGuard tint)) tintAlpha

/-- `getColorChanges` with each division the shader source writes guarded:
returns `none` if a written denominator (`w.z` in the gradient-band term,
`max(tint, 0.0001)` in the color-burn term) is zero.  `smoothstep` is a
GPU intrinsic and counts as primitive, not as a written division. -/
def getColorChangesChecked (c1 c2 stripe_p : ℝ) (w : Vec3) (blur bump tint tintAlpha : ℝ) :
    Option ℝ :=
  let ch0 := mix c2 c1 (smoothstep 0 (2 * blur) stripe_p)
  let border1 := w.x
  let ch1 := mix ch0 c2 (smoothstep border1 (border1 + 2 * blur) stripe_p)
  let bump' := smoothstep 0.2 0.8 bump
  let border2 := w.x + 0.4 * (1 - bump') * w.y
  let ch2 := mix ch1 c1 (smoothstep border2 (border2 + 2 * blur) stripe_p)
  let border3 := w.x + 0.5 * (1 - bump') * w.y
  let ch3 := mix ch2 c2 (smoothstep border3 (border3 + 2 * blur) stripe_p)
  let border4 := w.x + w.y
  let ch4 := mix ch3 c1 (smoothstep border4 (border4 + 2 * blur) stripe_p)
  if w.z = 0 then none else
  let gradient_t := (stripe_p - w.x - w.y) / w.z
  let gradient := mix c1 c2 (smoothstep 0 1 gradient_t)
  let ch5 := mix ch4 gradient (smoothstep border4 (border4 + 0.5 * blur) stripe_p)
  if tintGuard tint = 0 then none else
  some (mix ch5 (1 - min 1 ((1 - ch5) / tintGuard tint)) tintAlpha)

/-! ### Band decomposition of `getColorChanges` (spec §4.3)

Following the spec's reading, the compositor is an initial value followed
by five ordered `smoothstep` blends, the last being the wide gradient
band. -/

/-- One smoothstep-based color blend: blend the accumulator toward the
target `s.1` across the window starting at border `s.2.1` of span `s.2.2`. -/
def blendStep (stripe_p acc : ℝ) (s : ℝ × ℝ × ℝ) : ℝ :=
  mix acc s.1 (smoothstep s.2.1 (s.2.1 + s.2.2) stripe_p)

/-- Widths of the four hard bands of the compositor: the first thin strip
(`w.x`), the two pieces of the bump-narrowed second thin strip, and its
remainder up to `w.x + w.y`.  `bump'` is the remapped bump
`smoothstep(0.2, 0.8, bump)`. -/
def bandWidths (w : Vec3) (bump' : ℝ) : List ℝ :=
  [w.x, 0.4 * (1 - bump') * w.y, 0.1 * (1 - bump') * w.y, (0.5 + 0.5 * bump') * w.y]

/-- The five transition borders of the compositor: each is the cumulative
sum of the preceding band widths (the gradient blend reuses the last
border `w.x + w.y`). -/
def bandBorders (w : Vec3) (bump' : ℝ) : List ℝ :=
  [w.x,
   w.x + 0.4 * (1 - bump') * w.y,
   w.x + 0.5 * (1 - bump') * w.y,
   w.x + w.y,
   w.x + w.y]

/-- The five blend steps of the compositor: target color, border, span.
The first four use span `2 * blur`; the final gradient-band blend uses
span `0.5 * blur` and targets the `c1 → c2` linear gradient over the wide
band of width `w.z`. -/
def bandSteps (c1 c2 stripe_p : ℝ) (w : Vec3) (blur bump' : ℝ) : List (ℝ × ℝ × ℝ) :=
  [(c2, w.x, 2 * blur),
   (c1, w.x + 0.4 * (1 - bump') * w.y, 2 * blur),
   (c2, w.x + 0.5 * (1 - bump') * w.y, 2 * blur),
   (c1, w.x + w.y, 2 * blur),
   (mix c1 c2 (smoothstep 0 1 ((stripe_p - w.x - w.y) / w.z)), w.x + w.y, 0.5 * blur)]

/-- The compositor as the spec describes it: an initial `c2 → c1` blend at
position 0 followed by the five band blends, then the color-burn tint. -/
def getColorChangesBanded (c1 c2 stripe_p : ℝ) (w : Vec3) (blur bump tint tintAlpha : ℝ) : ℝ :=
  let bump' := smoothstep 0.2 0.8 bump
  let ch0 := mix c2 c1 (smoothstep 0 (2 * blur) stripe_p)
  let ch5 := (bandSteps c1 c2 stripe_p w blur bump').foldl (blendStep stripe_p) ch0
  mix ch5 (1 - min 1 ((1 - ch5) / tintGuard tint)) tintAlpha

/-! ## Simplex noise (`liquidMetalShader`, `Colors.ts` lines 102-144) -/

/-- The `permute` helper of the simplex noise, applied per component:
`mod(((x * 34.0) + 1.0) * x, 289.0)`. -/
def permute (x : ℝ) : ℝ := gmod ((x * 34 + 1) * x) 289

/-- `snoise` of `liquidMetalShader`: standard 2D simplex noise.  The
vector computations of the SkSL source are spelled out per component. -/
def snoise (v : Vec2) : ℝ :=
  let Cx : ℝ := 0.211324865405187
  let Cy : ℝ := 0.366025403784439
  let Cz : ℝ := -0.577350269189626
  let Cw : ℝ := 0.024390243902439
  -- First corner: i = floor(v + dot(v, C.yy)); x0 = v - i + dot(i, C.xx)
  let dvC := v.x * Cy + v.y * Cy
  let ix := gfloor (v.x + dvC)
  let iy := gfloor (v.y + dvC)
  let diC := ix * Cx + iy * Cx
  let x0x := v.x - ix + diC
  let x0y := v.y - iy + diC
  -- Other corners
  let i1x : ℝ := if x0x > x0y then 1 else 0
  let i1y : ℝ := if x0x > x0y then 0 else 1
  let x12x := x0x + Cx - i1x
  let x12y := x0y + Cx - i1y
  let x12z := x0x + Cz
  let x12w := x0y + Cz
  -- Permutations
  let ix' := gmod ix 289
  let iy' := gmod iy 289
  let p0 := permute (permute (iy' + 0) + ix' + 0)
  let p1 := permute (permute (iy' + i1y) + ix' + i1x)
  let p2 := permute (permute (iy' + 1) + ix' + 1)
  let m0 := max (0.5 - (x0x * x0x + x0y * x0y)) 0
  let m1 := max (0.5 - (x12x * x12x + x12y * x12y)) 0
  let m2 := max (0.5 - (x12z * x12z + x12w * x12w)) 0
  let m0' := (m0 * m0) * (m0 * m0)
  let m1' := (m1 * m1) * (m1 * m1)
  let m2' := (m2 * m2) * (m2 * m2)
  -- Gradients
  let g0 := 2 * fract (p0 * Cw) - 1
  let g1 := 2 * fract (p1 * Cw) - 1
  let g2 := 2 * fract (p2 * Cw) - 1
  let h0 := |g0| - 0.5
  let h1 := |g1| - 0.5
  let h2 := |g2| - 0.5
  let a00 := g0 - gfloor (g0 + 0.5)
  let a01 := g1 - gfloor (g1 + 0.5)
  let a02 := g2 - gfloor (g2 + 0.5)
  let m0'' := m0' * (1.79284291400159 - 0.85373472095314 * (a00 * a00 + h0 * h0))
  let m1'' := m1' * (1.79284291400159 - 0.85373472095314 * (a01 * a01 + h1 * h1))
  let m2'' := m2' * (1.79284291400159 - 0.85373472095314 * (a02 * a02 + h2 * h2))
  -- Final noise value
  let gx := a00 * x0x + h0 * x0y
  let gy := a01 * x12x + h1 * x12y
  let gz := a02 * x12z + h2 * x12w
  130 * (m0'' * gx + m1'' * gy + m2'' * gz)

/-! ## Perlin noise (`sensorLiquidMetalShader`, lines 78-100) -/

/-- `hash2` of `sensorLiquidMetalShader`. -/
def hash2 (p : Vec2) : Vec2 :=
  let px := p.x * 127.1 + p.y * 311.7
  let py := p.x * 269.5 + p.y * 183.3
  ⟨-1 + 2 * fract (Real.sin px * 43758.5453123),
   -1 + 2 * fract (Real.sin py * 43758.5453123)⟩

/-- `perlinNoise` of `sensorLiquidMetalShader`: 2D Perlin noise with
quintic smoothing. -/
def perlinNoise (p : Vec2) : ℝ :=
  let ix := gfloor p.x
  let iy := gfloor p.y
  let fx := fract p.x
  let fy := fract p.y
  let ux := fx * fx * fx * (fx * (fx * 6 - 15) + 10)
  let uy := fy * fy * fy * (fy * (fy * 6 - 15) + 10)
  let ga := hash2 ⟨ix + 0, iy + 0⟩
  let gb := hash2 ⟨ix + 1, iy + 0⟩
  let gc := hash2 ⟨ix + 0, iy + 1⟩
  let gd := hash2 ⟨ix + 1, iy + 1⟩
  let va := ga.x * (fx - 0) + ga.y * (fy - 0)
  let vb := gb.x * (fx - 1) + gb.y * (fy - 0)
  let vc := gc.x * (fx - 0) + gc.y * (fy - 1)
  let vd := gd.x * (fx - 1) + gd.y * (fy - 1)
  va + ux * (vb - va) + uy * (vc - va) + ux * uy * (va - vb - vc + vd)

/-! ## Shape edge evaluator (`getShapeEdge`, identical in both shaders)

The SkSL function reads the global uniforms `iShape` and `iContour`;
they are passed here as the two leading arguments. -/

/-- `getShapeEdge` of `liquidMetalShader` (`Colors.ts` lines 180-248). -/
def getShapeEdge (iShape iContour : ℝ) (uv : Vec2) (t : ℝ) : ℝ :=
  let edge :=
    if iShape < 0.5 then
      -- Shape 0: Full-fill (rectangle edges)
      let maskx := min uv.x (1 - uv.x)
      let masky := min uv.y (1 - uv.y)
      let maskX := (smoothstep 0 0.15 maskx) ^ (0.25 : ℝ)
      let maskY := (smoothstep 0 0.15 masky) ^ (0.25 : ℝ)
      clamp (1 - maskX * maskY) 0 1
    else if iShape < 1.5 then
      -- Shape 1: Circle
      let sx := (uv.x - 0.5) * 0.67
      let sy := (uv.y - 0.5) * 0.67
      (clamp (3 * glength ⟨sx, sy⟩) 0 1) ^ (18 : ℝ)
    else if iShape < 2.5 then
      -- Shape 2: Daisy (flower)
      let sx := (uv.x - 0.5) * 1.68
      let sy := (uv.y - 0.5) * 1.68
      let r0 := glength ⟨sx, sy⟩ * 2
      let a := atan2 sy sx + 0.2
      let r := r0 * (1 + 0.05 * Real.sin (3 * a + 2 * t))
      let f := |Real.cos (a * 3)|
      let e := smoothstep f (f + 0.7) r
      e * e
    else if iShape < 3.5 then
      -- Shape 3: Diamond (rotated square)
      let s0 := rotate ⟨uv.x - 0.5, uv.y - 0.5⟩ (0.25 * π)
      let sx := s0.x * 1.42 + 0.5
      let sy := s0.y * 1.42 + 0.5
      let maskx := min sx (1 - sx)
      let masky := min sy (1 - sy)
      let maskX := (smoothstep 0 0.15 maskx) ^ (0.25 : ℝ)
      let maskY := (smoothstep 0 0.15 masky) ^ (0.25 : ℝ)
      clamp (1 - maskX * maskY) 0 1
    else
      -- Shape 4: Metaballs (animated blobs)
      let sx := (uv.x - 0.5) * 1.3
      let sy := (uv.y - 0.5) * 1.3
      let e := ∑ i in Finset.range 5,
        (let fi : ℝ := i
         let speed := 1.5 + 0.666 * Real.sin (fi * 12.345)
         let angle := -fi * 1.5
         let d1x := Real.cos angle
         let d1y := Real.sin angle
         let d2x := Real.cos (angle + 1.57)
         let d2y := Real.sin (angle + 1.0)
         let trajx := 0.4 * (d1x * Real.sin (t * speed + fi * 1.23) +
           d2x * Real.cos (t * (speed * 0.7) + fi * 2.17))
         let trajy := 0.4 * (d1y * Real.sin (t * speed + fi * 1.23) +
           d2y * Real.cos (t * (speed * 0.7) + fi * 2.17))
         let d := glength ⟨sx + trajx, sy + trajy⟩
         (1 - clamp d 0 1) ^ (4 : ℝ))
      (1 - smoothstep 0.65 0.9 e) ^ (4 : ℝ)
  -- Apply contour smoothing (simplified without fwidth)
  let edgeSmooth := smoothstep 0.85 0.95 edge
  mix edgeSmooth edge (smoothstep 0 0.4 iContour)

/-- `getShapeEdge` of `sensorLiquidMetalShader`
(`SensorLiquidMetal.ts` lines 134-196); the source text is identical to
the `liquidMetalShader` copy. -/
def sensorGetShapeEdge (iShape iContour : ℝ) (uv : Vec2) (t : ℝ) : ℝ :=
  let edge :=
    if iShape < 0.5 then
      let maskx := min uv.x (1 - uv.x)
      let masky := min uv.y (1 - uv.y)
      let maskX := (smoothstep 0 0.15 maskx) ^ (0.25 : ℝ)
      let maskY := (smoothstep 0 0.15 masky) ^ (0.25 : ℝ)
      clamp (1 - maskX * maskY) 0 1
    else if iShape < 1.5 then
      let sx := (uv.x - 0.5) * 0.67
      let sy := (uv.y - 0.5) * 0.67
      (clamp (3 * glength ⟨sx, sy⟩) 0 1) ^ (18 : ℝ)
    else if iShape < 2.5 then
      let sx := (uv.x - 0.5) * 1.68
      let sy := (uv.y - 0.5) * 1.68
      let r0 := glength ⟨sx, sy⟩ * 2
      let a := atan2 sy sx + 0.2
      let r := r0 * (1 + 0.05 * Real.sin (3 * a + 2 * t))
      let f := |Real.cos (a * 3)|
      let e := smoothstep f (f + 0.7) r
      e * e
    else if iShape < 3.5 then
      let s0 := rotate ⟨uv.x - 0.5, uv.y - 0.5⟩ (0.25 * π)
      let sx := s0.x * 1.42 + 0.5
      let sy := s0.y * 1.42 + 0.5
      let maskx := min sx (1 - sx)
      let masky := min sy (1 - sy)
      let maskX := (smoothstep 0 0.15 maskx) ^ (0.25 : ℝ)
      let maskY := (smoothstep 0 0.15 masky) ^ (0.25 : ℝ)
      clamp (1 - maskX * maskY) 0 1
    else
      let sx := (uv.x - 0.5) * 1.3
      let sy := (uv.y - 0.5) * 1.3
      let e := ∑ i in Finset.range 5,
        (let fi : ℝ := i
         let speed := 1.5 + 0.666 * Real.sin (fi * 12.345)
         let angle := -fi * 1.5
         let d1x := Real.cos angle
         let d1y := Real.sin angle
         let d2x := Real.cos (angle + 1.57)
         let d2y := Real.sin (angle + 1.0)
         let trajx := 0.4 * (d1x * Real.sin (t * speed + fi * 1.23) +
           d2x * Real.cos (t * (speed * 0.7) + fi * 2.17))
         let trajy := 0.4 * (d1y * Real.sin (t * speed + fi * 1.23) +
           d2y * Real.cos (t * (speed * 0.7) + fi * 2.17))
         let d := glength ⟨sx + trajx, sy + trajy⟩
         (1 - clamp d 0 1) ^ (4 : ℝ))
      (1 - smoothstep 0.65 0.9 e) ^ (4 : ℝ)
  let edgeSmooth := smoothstep 0.85 0.95 edge
  mix edgeSmooth edge (smoothstep 0 0.4 iContour)

/-! ## `main` of `liquidMetalShader` (`Colors.ts` lines 254-379) -/

/-- Uniforms of `liquidMetalShader`. -/
structure LiquidUniforms where
  iResolution : Vec2
  iTime : ℝ
  iColorBack : Vec4
  iColorTint : Vec4
  iSoftness : ℝ
  iRepetition : ℝ
  iShiftRed : ℝ
  iShiftBlue : ℝ
  iDistortion : ℝ
  iContour : ℝ
  iAngle : ℝ
  iShape : ℝ

/-- The stripe-pattern values computed by a shader `main`: the shared
`direction`, the two scaled dispersion offsets, and the per-channel
stripe positions. -/
structure StripeVals where
  direction : ℝ
  dispersionRed : ℝ
  dispersionBlue : ℝ
  stripe_r : ℝ
  stripe_g : ℝ
  stripe_b : ℝ

/-- The body of `liquidMetalShader`'s `main` up to and including the
per-channel stripe positions (`Colors.ts` lines 254-362), transcribed
statement by statement; reassigned SkSL locals become primed `let`s. -/
def liquidStripes (u : LiquidUniforms) (fragCoord : Vec2) : StripeVals :=
  let t := 0.3 * (u.iTime + 2.8)
  let uvx := fragCoord.x / u.iResolution.x
  let uvy := 1 - fragCoord.y / u.iResolution.y
  let uv : Vec2 := ⟨uvx, uvy⟩
  let cycleWidth := u.iRepetition
  let angle := (-u.iAngle + 70) * π / 180
  let rotatedUV0 := rotate ⟨uvx - 0.5, uvy - 0.5⟩ angle
  let rotatedUV : Vec2 := ⟨rotatedUV0.x + 0.5, rotatedUV0.y + 0.5⟩
  let edge0 := getShapeEdge u.iShape u.iContour uv t
  let edge1 :=
    if u.iShape < 1.5 then 1.2 * edge0
    else if u.iShape < 4.5 then 1.8 * edge0 ^ (1.5 : ℝ)
    else edge0
  let diagBLtoTR := rotatedUV.x - rotatedUV.y
  let grad_uv : Vec2 := ⟨uvx - 0.5, uvy - 0.5⟩
  let dist := glength ⟨grad_uv.x, grad_uv.y + 0.2 * diagBLtoTR⟩
  let grad_uv' := rotate grad_uv ((0.25 - 0.2 * diagBLtoTR) * π)
  let direction0 := grad_uv'.x
  let bump0 := 1 - (1.8 * dist) ^ (1.2 : ℝ)
  let bump1 := bump0 * uvy ^ (0.3 : ℝ)
  let noise := snoise ⟨uvx - t, uvy - t⟩
  let edge := edge1 + (1 - edge1) * u.iDistortion * noise
  let direction1 := direction0 + diagBLtoTR
  let direction2 := direction1 -
    2 * noise * diagBLtoTR * (smoothstep 0 1 edge * (1 - smoothstep 0 1 edge))
  let direction3 := direction2 * mix 1 (1 - edge) (smoothstep 0.5 1 u.iContour)
  let direction4 := direction3 - 1.7 * edge * smoothstep 0.5 1 u.iContour
  let direction5 := direction4 + 0.2 * u.iContour ^ (4 : ℝ) * (1 - smoothstep 0 1 edge)
  let bump := bump1 * clamp (uvy ^ (0.1 : ℝ)) 0.3 1
  let direction6 := direction5 * (0.1 + (1.1 - edge) * bump)
  let direction7 := direction6 * (0.4 + 0.6 * (1 - smoothstep 0.5 1 edge))
  let direction8 := direction7 + 0.18 * (smoothstep 0.1 0.2 uvy * (1 - smoothstep 0.2 0.4 uvy))
  let direction9 := direction8 +
    0.03 * (smoothstep 0.1 0.2 (1 - uvy) * (1 - smoothstep 0.2 0.4 (1 - uvy)))
  let direction10 := direction9 * (0.5 + 0.5 * uvy ^ (2 : ℝ))
  let direction11 := direction10 * cycleWidth
  let direction := direction11 - t
  let colorDispersion := clamp (1 - bump) 0 1
  let dispersionRed0 := colorDispersion + 0.03 * bump * noise
  let dispersionRed1 := dispersionRed0 +
    5 * (smoothstep (-0.1) 0.2 uvy * (1 - smoothstep 0.1 0.5 uvy)) *
      (smoothstep 0.4 0.6 bump * (1 - smoothstep 0.4 1 bump))
  let dispersionRed2 := dispersionRed1 - diagBLtoTR
  let dispersionBlue0 := colorDispersion * 1.3
  let dispersionBlue1 := dispersionBlue0 +
    (smoothstep 0 0.4 uvy * (1 - smoothstep 0.1 0.8 uvy)) *
      (smoothstep 0.4 0.6 bump * (1 - smoothstep 0.4 0.8 bump))
  let dispersionBlue2 := dispersionBlue1 - 0.2 * edge
  let dispersionRed := dispersionRed2 * (u.iShiftRed / 20)
  let dispersionBlue := dispersionBlue2 * (u.iShiftBlue / 20)
  { direction := direction
    dispersionRed := dispersionRed
    dispersionBlue := dispersionBlue
    stripe_r := fract (direction + dispersionRed)
    stripe_g := fract direction
    stripe_b := fract (direction - dispersionBlue) }

/-! ## `main` of `sensorLiquidMetalShader` (`SensorLiquidMetal.ts` 202-343)

The sensor uniforms enter `main` only through six derived offset terms
(the source's locals `sensorAngleOffset`, `sensorLightX`, `sensorLightY`,
`sensorChromaX`, `sensorChromaY`, and the inline bump perturbation
`(iSensorY * 0.1) * iSensorInfluence`); `sensorMainCore` is `main`
parameterized by those offsets and the remaining (non-sensor) uniforms. -/

/-- Non-sensor uniforms of `sensorLiquidMetalShader`. -/
structure SensorCtx where
  iResolution : Vec2
  iTime : ℝ
  iColorBack : Vec4
  iColorTint : Vec4
  iColorHighlight : Vec3
  iColorShadow : Vec3
  iSoftness : ℝ
  iRepetition : ℝ
  iShiftRed : ℝ
  iShiftBlue : ℝ
  iDistortion : ℝ
  iContour : ℝ
  iAngle : ℝ
  iShape : ℝ

/-- Full uniform set of `sensorLiquidMetalShader`. -/
structure SensorUniforms extends SensorCtx where
  iSensorX : ℝ
  iSensorY : ℝ
  iSensorInfluence : ℝ

/-- Result of the sensor shader's `main`: the stripe values plus the
returned RGBA fragment color. -/
structure SensorResult where
  stripes : StripeVals
  outColor : Vec4

/-- The body of `sensorLiquidMetalShader`'s `main`, with the six
sensor-derived offsets as parameters (`angleOff` = `sensorAngleOffset`,
`lightX/Y` = `sensorLightX/Y`, `bumpOff` = `(iSensorY*0.1)*iSensorInfluence`,
`chromaX/Y` = `sensorChromaX/Y`). -/
def sensorMainCore (c : SensorCtx) (angleOff lightX lightY bumpOff chromaX chromaY : ℝ)
    (fragCoord : Vec2) : SensorResult :=
  let t := 0.3 * (c.iTime + 2.8)
  let uvx := fragCoord.x / c.iResolution.x
  let uvy := 1 - fragCoord.y / c.iResolution.y
  let uv : Vec2 := ⟨uvx, uvy⟩
  let cycleWidth := c.iRepetition
  let totalAngle := c.iAngle + angleOff
  let angle := (-totalAngle + 70) * π / 180
  let rotatedUV0 := rotate ⟨uvx - 0.5, uvy - 0.5⟩ angle
  let rotatedUV : Vec2 := ⟨rotatedUV0.x + 0.5, rotatedUV0.y + 0.5⟩
  let edge0 := sensorGetShapeEdge c.iShape c.iContour uv t
  let opacity0 := 1 - smoothstep 0.85 0.95 edge0
  let edge1 :=
    if c.iShape < 1.5 then 1.2 * edge0
    else if c.iShape < 4.5 then 1.8 * edge0 ^ (1.5 : ℝ)
    else edge0
  let diagBLtoTR := rotatedUV.x - rotatedUV.y + lightX
  let diagTLtoBR := rotatedUV.x + rotatedUV.y + lightY
  let color1 := c.iColorHighlight
  let color2 : Vec3 :=
    ⟨c.iColorShadow.x + 0.05 * lightX,
     c.iColorShadow.y + 0,
     c.iColorShadow.z + 0.1 * smoothstep 0.7 1.3 diagTLtoBR⟩
  let grad_uv : Vec2 := ⟨uvx - 0.5 + lightX * 0.2, uvy - 0.5 + lightY * 0.2⟩
  let dist := glength ⟨grad_uv.x, grad_uv.y + 0.2 * diagBLtoTR⟩
  let grad_uv' := rotate grad_uv ((0.25 - 0.2 * diagBLtoTR) * π)
  let direction0 := grad_uv'.x
  let bump0 := 1 - (1.8 * dist) ^ (1.2 : ℝ)
  let bump1 := bump0 * uvy ^ (0.3 : ℝ) + bumpOff
  let thin_strip_1_r := 0.12 / cycleWidth * (1 - 0.4 * bump1)
  let thin_strip_2_r := 0.07 / cycleWidth * (1 + 0.4 * bump1)
  let wide_strip_r := 1 - thin_strip_1_r - thin_strip_2_r
  let thin_strip_1_w := cycleWidth * thin_strip_1_r
  let thin_strip_2_w := cycleWidth * thin_strip_2_r
  let noise := perlinNoise ⟨uvx * 3 - t, uvy * 3 - t⟩
  let edge := edge1 + (1 - edge1) * c.iDistortion * noise
  let direction1 := direction0 + diagBLtoTR
  let direction2 := direction1 -
    2 * noise * diagBLtoTR * (smoothstep 0 1 edge * (1 - smoothstep 0 1 edge))
  let direction3 := direction2 * mix 1 (1 - edge) (smoothstep 0.5 1 c.iContour)
  let direction4 := direction3 - 1.7 * edge * smoothstep 0.5 1 c.iContour
  let direction5 := direction4 + 0.2 * c.iContour ^ (4 : ℝ) * (1 - smoothstep 0 1 edge)
  let bump := bump1 * clamp (uvy ^ (0.1 : ℝ)) 0.3 1
  let direction6 := direction5 * (0.1 + (1.1 - edge) * bump)
  let direction7 := direction6 * (0.4 + 0.6 * (1 - smoothstep 0.5 1 edge))
  let direction8 := direction7 + 0.18 * (smoothstep 0.1 0.2 uvy * (1 - smoothstep 0.2 0.4 uvy))
  let direction9 := direction8 +
    0.03 * (smoothstep 0.1 0.2 (1 - uvy) * (1 - smoothstep 0.2 0.4 (1 - uvy)))
  let direction10 := direction9 * (0.5 + 0.5 * uvy ^ (2 : ℝ))
  let direction11 := direction10 * cycleWidth
  let direction := direction11 - t
  let colorDispersion := clamp (1 - bump) 0 1
  let dispersionRed0 := colorDispersion + 0.03 * bump * noise
  let dispersionRed1 := dispersionRed0 +
    5 * (smoothstep (-0.1) 0.2 uvy * (1 - smoothstep 0.1 0.5 uvy)) *
      (smoothstep 0.4 0.6 bump * (1 - smoothstep 0.4 1 bump))
  let dispersionRed2 := dispersionRed1 - diagBLtoTR
  let dispersionRed3 := dispersionRed2 + chromaX
  let dispersionBlue0 := colorDispersion * 1.3
  let dispersionBlue1 := dispersionBlue0 +
    (smoothstep 0 0.4 uvy * (1 - smoothstep 0.1 0.8 uvy)) *
      (smoothstep 0.4 0.6 bump * (1 - smoothstep 0.4 0.8 bump))
  let dispersionBlue2 := dispersionBlue1 - 0.2 * edge
  let dispersionBlue3 := dispersionBlue2 + chromaY
  let dispersionRed := dispersionRed3 * (c.iShiftRed / 20)
  let dispersionBlue := dispersionBlue3 * (c.iShiftBlue / 20)
  let blur := c.iSoftness / 15 + 0.3 * c.iContour
  let w : Vec3 := ⟨thin_strip_1_w,
    thin_strip_2_w - 0.02 * smoothstep 0 1 (edge + bump), wide_strip_r⟩
  let stripe_r := fract (direction + dispersionRed)
  let r := getColorChanges color1.x color2.x stripe_r w (blur + 0.01) bump c.iColorTint.r c.iColorTint.a
  let stripe_g := fract direction
  let g := getColorChanges color1.y color2.y stripe_g w (blur + 0.01) bump c.iColorTint.g c.iColorTint.a
  let stripe_b := fract (direction - dispersionBlue)
  let b := getColorChanges color1.z color2.z stripe_b w (blur + 0.01) bump c.iColorTint.b c.iColorTint.a
  let bgFactor := c.iColorBack.a * (1 - opacity0)
  let opacity := opacity0 + c.iColorBack.a * (1 - opacity0)
  let dither := (fract (Real.sin (fragCoord.x * 12.9898 + fragCoord.y * 78.233) * 43758.5453)
    - 0.5) / 255
  { stripes :=
      { direction := direction
        dispersionRed := dispersionRed
        dispersionBlue := dispersionBlue
        stripe_r := stripe_r
        stripe_g := stripe_g
        stripe_b := stripe_b }
    outColor :=
      ⟨r * opacity0 + c.iColorBack.r * bgFactor + dither,
       g * opacity0 + c.iColorBack.g * bgFactor + dither,
       b * opacity0 + c.iColorBack.b * bgFactor + dither,
       opacity⟩ }

/-- `main` of `sensorLiquidMetalShader`: the core applied to the six
sensor offsets exactly as the source computes them. -/
def sensorMain (u : SensorUniforms) (fragCoord : Vec2) : Vec4 :=
  (sensorMainCore u.toSensorCtx
    ((u.iSensorX * 45 + u.iSensorY * 30) * u.iSensorInfluence)
    (u.iSensorX * u.iSensorInfluence * 0.3)
    (u.iSensorY * u.iSensorInfluence * 0.3)
    (u.iSensorY * 0.1 * u.iSensorInfluence)
    (u.iSensorX * u.iSensorInfluence * 0.02)
    (u.iSensorY * u.iSensorInfluence * 0.02)
    fragCoord).outColor

/-- The stripe values of `sensorLiquidMetalShader`'s `main`. -/
def sensorStripes (u : SensorUniforms) (fragCoord : Vec2) : StripeVals :=
  (sensorMainCore u.toSensorCtx
    ((u.iSensorX * 45 + u.iSensorY * 30) * u.iSensorInfluence)
    (u.iSensorX * u.iSensorInfluence * 0.3)
    (u.iSensorY * u.iSensorInfluence * 0.3)
    (u.iSensorY * 0.1 * u.iSensorInfluence)
    (u.iSensorX * u.iSensorInfluence * 0.02)
    (u.iSensorY * u.iSensorInfluence * 0.02)
    fragCoord).stripes

/-- Per-corner envelope used to bound `snoise`: the quartic falloff kernel
`max(1/2 - s, 0)^4` times `√s`, where `s` is the squared distance from the
sample point to a simplex corner. -/
def noiseEnvelope (s : ℝ) : ℝ := (max (0.5 - s) 0) ^ 4 * Real.sqrt s

end

/-! # Theorems -/

/-! ## Helper lemmas for `createUniformColorStops` -/

theorem foldr_enumFrom_dup (l : List String) (k : ℕ) :
    (List.enumFrom k l).foldr (fun (ic : ℕ × String) acc => ic.2 :: ic.2 :: acc) [] =
      l.flatMap (fun c => [c, c]) := by
  induction l generalizing k with
  | nil => rfl
  | cons a l ih => simp [List.enumFrom_cons, ih]

theorem foldr_enumFrom_pos (n : ℚ) (l : List String) (k : ℕ) :
    (List.enumFrom k l).foldr
        (fun (ic : ℕ × String) acc => ((ic.1 : ℚ) / n) :: (((ic.1 : ℚ) + 1) / n) :: acc) [] =
      (List.range' k l.length).flatMap (fun i => [(i : ℚ) / n, ((i : ℚ) + 1) / n]) := by
  induction l generalizing k with
  | nil => rfl
  | cons a l ih => simp [List.enumFrom_cons, List.range'_succ, ih]

theorem length_flatMap_pair {α β : Type} (l : List α) (f g : α → β) :
    (l.flatMap fun a => [f a, g a]).length = 2 * l.length := by
  induction l with
  | nil => rfl
  | cons a l ih =>
    simp only [List.flatMap_cons, List.length_append, List.length_cons, List.length_nil, ih]
    omega

/-- Claim C5: for a non-empty list of `n` colors, `createUniformColorStops`
returns `2n` colors (each input color duplicated consecutively, in input
order) and `2n` positions `[0/n, 1/n, 1/n, 2/n, …, (n-1)/n, n/n]`; in
particular a 3-color input yields 6 entries with positions
`[0, 1/3, 1/3, 2/3, 2/3, 1]`. -/
theorem createUniformColorStops_spec (cs : List String) (_hne : cs ≠ []) :
    ((createUniformColorStops cs).1.length = 2 * cs.length ∧
     (createUniformColorStops cs).2.length = 2 * cs.length ∧
     (createUniformColorStops cs).1 = cs.flatMap (fun c => [c, c]) ∧
     (createUniformColorStops cs).2 =
       (List.range cs.length).flatMap
         (fun i => [(i : ℚ) / cs.length, ((i : ℚ) + 1) / cs.length])) ∧
    createUniformColorStops ["#F00", "#0F0", "#00F"] =
      (["#F00", "#F00", "#0F0", "#0F0", "#00F", "#00F"],
       [0, 1/3, 1/3, 2/3, 2/3, 1]) := by
  have h1 : (createUniformColorStops cs).1 = cs.flatMap (fun c => [c, c]) :=
    foldr_enumFrom_dup cs 0
  have h2 : (createUniformColorStops cs).2 =
      (List.range cs.length).flatMap
        (fun i => [(i : ℚ) / cs.length, ((i : ℚ) + 1) / cs.length]) := by
    rw [List.range_eq_range' cs.length]
    exact foldr_enumFrom_pos cs.length cs 0
  refine ⟨⟨?_, ?_, h1, h2⟩, ?_⟩
  · rw [h1]; exact length_flatMap_pair cs id id
  · rw [h2, length_flatMap_pair (List.range cs.length)
      (fun i => (i : ℚ) / cs.length) (fun i => ((i : ℚ) + 1) / cs.length),
      List.length_range]
  · refine Prod.ext ?_ ?_
    · rfl
    · show ([(0:ℚ)/3, (0+1)/3, 1/3, (1+1)/3, 2/3, (2+1)/3] : List ℚ) =
        [0, 1/3, 1/3, 2/3, 2/3, 1]
      norm_num

/-- Witness for C5 at the concrete 3-color input. -/
theorem createUniformColorStops_spec_witness :
    (createUniformColorStops ["#F00", "#0F0", "#00F"]).1.length = 6 := by
  simpa using
    (createUniformColorStops_spec ["#F00", "#0F0", "#00F"] (List.cons_ne_nil _ _)).1.1

/-- Claim C4: the ring clip path constructions build the inner rounded
rectangle at `(strokeWidth, strokeWidth)` (plus the canvas offset for the
glow variant) with dimensions `(width - 2·strokeWidth, height - 2·strokeWidth)`
and corner radius `max 0 (borderRadius - strokeWidth)`; at
`width=300, height=200, borderRadius=20, strokeWidth=15` the inner
rectangle is `(15,15,270,170)` with radius 5. -/
theorem ringClip_inner_spec :
    (∀ width height borderRadius strokeWidth : ℚ,
      (ringBorderClipRects width height borderRadius strokeWidth).2 =
        ⟨strokeWidth, strokeWidth, width - 2 * strokeWidth, height - 2 * strokeWidth,
         max 0 (borderRadius - strokeWidth)⟩) ∧
    (∀ width height borderRadius strokeWidth offsetX offsetY : ℚ,
      (ringGlowClipRects width height borderRadius strokeWidth offsetX offsetY).2 =
        ⟨offsetX + strokeWidth, offsetY + strokeWidth, width - 2 * strokeWidth,
         height - 2 * strokeWidth, max 0 (borderRadius - strokeWidth)⟩) ∧
    (ringBorderClipRects 300 200 20 15).2 = ⟨15, 15, 270, 170, 5⟩ ∧
    (ringBorderClipRects 300 200 20 15).1 = ⟨0, 0, 300, 200, 20⟩ := by
  refine ⟨fun w h br sw => ?_, fun w h br sw ox oy => ?_,
    by norm_num [ringBorderClipRects, RRect.mk.injEq],
    by norm_num [ringBorderClipRects, RRect.mk.injEq]⟩
  · simp only [ringBorderClipRects]
    congr 1 <;> ring
  · simp only [ringGlowClipRects]
    congr 1 <;> ring

/-- Claim C6: `getMetalColors 'gold'` returns the gold preset
`{highlight:[1.0,0.84,0.0], shadow:[0.40,0.25,0.0]}`; `'custom'` with
either custom color missing falls back to the silver preset
`{highlight:[0.98,0.98,1.0], shadow:[0.10,0.10,0.10]}` and warns; and
`'custom'` with both provided returns exactly those colors without
warning. -/
theorem getMetalColors_spec :
    getMetalColors (.preset .gold) none none =
      (⟨⟨1, 0.84, 0⟩, ⟨0.40, 0.25, 0⟩⟩, false) ∧
    getMetalColors .custom none none =
      (⟨⟨0.98, 0.98, 1⟩, ⟨0.10, 0.10, 0.10⟩⟩, true) ∧
    (∀ h : RGB, getMetalColors .custom (some h) none =
      (⟨⟨0.98, 0.98, 1⟩, ⟨0.10, 0.10, 0.10⟩⟩, true)) ∧
    (∀ s : RGB, getMetalColors .custom none (some s) =
      (⟨⟨0.98, 0.98, 1⟩, ⟨0.10, 0.10, 0.10⟩⟩, true)) ∧
    (∀ h s : RGB, getMetalColors .custom (some h) (some s) = (⟨h, s⟩, false)) :=
  ⟨by norm_num [getMetalColors, METAL_PRESETS, Prod.ext_iff, RGB.mk.injEq,
      MetalColors.mk.injEq],
   by norm_num [getMetalColors, METAL_PRESETS, Prod.ext_iff, RGB.mk.injEq,
      MetalColors.mk.injEq],
   fun h => by norm_num [getMetalColors, METAL_PRESETS, Prod.ext_iff, RGB.mk.injEq,
      MetalColors.mk.injEq],
   fun s => by norm_num [getMetalColors, METAL_PRESETS, Prod.ext_iff, RGB.mk.injEq,
      MetalColors.mk.injEq],
   fun h s => rfl⟩

/-- Claim C10: `interpolateMetalColors a b 0 = METAL_PRESETS a`,
`interpolateMetalColors a b 1 = METAL_PRESETS b`, and
`interpolateMetalColors a a t = METAL_PRESETS a` for every `t`. -/
theorem interpolateMetalColors_endpoints :
    (∀ a b : MetalPresetName, interpolateMetalColors a b 0 = METAL_PRESETS a) ∧
    (∀ a b : MetalPresetName, interpolateMetalColors a b 1 = METAL_PRESETS b) ∧
    (∀ (a : MetalPresetName) (t : ℚ), interpolateMetalColors a a t = METAL_PRESETS a) := by
  have l0 : ∀ x y : ℚ, lerp x y 0 = x := fun x y => by simp [lerp]
  have l1 : ∀ x y : ℚ, lerp x y 1 = y := fun x y => by simp [lerp]
  have ld : ∀ (x t : ℚ), lerp x x t = x := fun x t => by simp [lerp]
  refine ⟨fun a b => ?_, fun a b => ?_, fun a t => ?_⟩ <;>
    simp only [interpolateMetalColors, l0, l1, ld]

/-! ## Range lemmas for the SkSL built-ins -/

theorem clamp01_mem (x : ℝ) : clamp x 0 1 ∈ Set.Icc (0:ℝ) 1 :=
  ⟨le_min (le_max_right x 0) zero_le_one, min_le_right _ _⟩

theorem smoothstep_mem (e0 e1 x : ℝ) : smoothstep e0 e1 x ∈ Set.Icc (0:ℝ) 1 := by
  have ht := clamp01_mem ((x - e0) / (e1 - e0))
  obtain ⟨ht0, ht1⟩ := ht
  simp only [smoothstep]
  set t := clamp ((x - e0) / (e1 - e0)) 0 1 with hdef
  constructor
  · nlinarith [mul_nonneg (mul_nonneg ht0 ht0) (by linarith : (0:ℝ) ≤ 3 - 2 * t)]
  · nlinarith [mul_nonneg (mul_nonneg (sub_nonneg.2 ht1) (sub_nonneg.2 ht1))
      (by linarith : (0:ℝ) ≤ 1 + 2 * t)]

theorem mix_mem {a b t : ℝ} (ha : a ∈ Set.Icc (0:ℝ) 1) (hb : b ∈ Set.Icc (0:ℝ) 1)
    (ht : t ∈ Set.Icc (0:ℝ) 1) : mix a b t ∈ Set.Icc (0:ℝ) 1 := by
  obtain ⟨ha0, ha1⟩ := ha
  obtain ⟨hb0, hb1⟩ := hb
  obtain ⟨ht0, ht1⟩ := ht
  constructor
  · have h1 := mul_nonneg ha0 (sub_nonneg.2 ht1)
    have h2 := mul_nonneg hb0 ht0
    simp only [mix]; nlinarith
  · have h1 := mul_nonneg (sub_nonneg.2 ha1) (sub_nonneg.2 ht1)
    have h2 := mul_nonneg (sub_nonneg.2 hb1) ht0
    simp only [mix]; nlinarith

theorem rpow_mem {x : ℝ} (y : ℝ) (hx : x ∈ Set.Icc (0:ℝ) 1) (hy : 0 < y) :
    x ^ y ∈ Set.Icc (0:ℝ) 1 :=
  ⟨Real.rpow_nonneg hx.1 y, Real.rpow_le_one hx.1 hx.2 hy.le⟩

/-- Claim C2: the stripe compositor is total when `widths.z ≠ 0`: its
color-burn denominator `max(tint, 0.0001)` is at least `0.0001` for every
tint, and with `w.z ≠ 0` the division-guarded compositor agrees with the
unguarded one (the gradient-band term divided by `w.z` and the color-burn
term are the only divisions the source writes). -/
theorem getColorChanges_total (c1 c2 stripe_p : ℝ) (w : Vec3)
    (blur bump tint tintAlpha : ℝ) (hwz : w.z ≠ 0) :
    0.0001 ≤ tintGuard tint ∧
    getColorChangesChecked c1 c2 stripe_p w blur bump tint tintAlpha =
      some (getColorChanges c1 c2 stripe_p w blur bump tint tintAlpha) := by
  have hg : tintGuard tint ≠ 0 :=
    ne_of_gt (lt_of_lt_of_le (by norm_num) (le_max_right tint 0.0001))
  refine ⟨le_max_right _ _, ?_⟩
  simp only [getColorChangesChecked, getColorChanges]
  rw [if_neg hwz, if_neg hg]

/-- Witness for C2 at a concrete input with `w.z = 0.8 ≠ 0`. -/
theorem getColorChanges_total_witness :
    0.0001 ≤ tintGuard 0.5 ∧
    getColorChangesChecked 0 1 0.5 ⟨0.1, 0.1, 0.8⟩ 0.02 0.3 0.5 0.2 =
      some (getColorChanges 0 1 0.5 ⟨0.1, 0.1, 0.8⟩ 0.02 0.3 0.5 0.2) :=
  getColorChanges_total 0 1 0.5 ⟨0.1, 0.1, 0.8⟩ 0.02 0.3 0.5 0.2
    (by show (0.8:ℝ) ≠ 0; norm_num)

/-- Claim C7: the compositor is the initial `c2→c1` blend followed by five
ordered smoothstep blends whose borders are the cumulative sums of the
band widths (`w.x`, then the bump-narrowed pieces of `w.y`), the last
blend targeting the wide `c1→c2` gradient band of width `w.z`. -/
theorem getColorChanges_bands (c1 c2 stripe_p : ℝ) (w : Vec3)
    (blur bump tint tintAlpha : ℝ) (hx : 0 ≤ w.x) (hy : 0 ≤ w.y) :
    getColorChanges c1 c2 stripe_p w blur bump tint tintAlpha =
      getColorChangesBanded c1 c2 stripe_p w blur bump tint tintAlpha ∧
    (bandSteps c1 c2 stripe_p w blur (smoothstep 0.2 0.8 bump)).map (fun s => s.2.1) =
      bandBorders w (smoothstep 0.2 0.8 bump) ∧
    List.Chain' (· ≤ ·) (0 :: bandBorders w (smoothstep 0.2 0.8 bump)) ∧
    bandBorders w (smoothstep 0.2 0.8 bump) =
      [((bandWidths w (smoothstep 0.2 0.8 bump)).take 1).sum,
       ((bandWidths w (smoothstep 0.2 0.8 bump)).take 2).sum,
       ((bandWidths w (smoothstep 0.2 0.8 bump)).take 3).sum,
       ((bandWidths w (smoothstep 0.2 0.8 bump)).take 4).sum,
       ((bandWidths w (smoothstep 0.2 0.8 bump)).take 4).sum] ∧
    (bandWidths w (smoothstep 0.2 0.8 bump)).sum = w.x + w.y := by
  obtain ⟨hb0, hb1⟩ := smoothstep_mem 0.2 0.8 bump
  have hyb : 0 ≤ (1 - smoothstep 0.2 0.8 bump) * w.y :=
    mul_nonneg (sub_nonneg.2 hb1) hy
  have hyb' : 0 ≤ smoothstep 0.2 0.8 bump * w.y := mul_nonneg hb0 hy
  refine ⟨rfl, rfl, ?_, ?_, ?_⟩
  · simp only [bandBorders, List.chain'_cons, List.chain'_singleton, and_true]
    refine ⟨hx, by nlinarith, by nlinarith, by nlinarith, le_refl _⟩
  · simp only [bandBorders, bandWidths, List.take, List.sum_cons, List.sum_nil,
      List.cons.injEq, and_true]
    refine ⟨by ring, by ring, by ring, by ring, by ring⟩
  · simp only [bandWidths, List.sum_cons, List.sum_nil]
    ring

/-- Witness for C7 at a concrete input with nonnegative thin-strip widths. -/
theorem getColorChanges_bands_witness :
    getColorChanges 0.9 0.1 0.4 ⟨0.12, 0.07, 0.81⟩ 0.05 0.5 0.3 0.6 =
      getColorChangesBanded 0.9 0.1 0.4 ⟨0.12, 0.07, 0.81⟩ 0.05 0.5 0.3 0.6 :=
  (getColorChanges_bands 0.9 0.1 0.4 ⟨0.12, 0.07, 0.81⟩ 0.05 0.5 0.3 0.6
    (by show (0:ℝ) ≤ 0.12; norm_num) (by show (0:ℝ) ≤ 0.07; norm_num)).1

/-- Claim C3: in both shader variants, with `iShiftRed = 0` and
`iShiftBlue = 0` (the sensor uniforms unconstrained), the three
per-channel stripe positions all equal `fract(direction)` at every
fragment coordinate. -/
theorem stripes_unshifted (u : LiquidUniforms) (su : SensorUniforms) (fc sfc : Vec2)
    (h1 : u.iShiftRed = 0) (h2 : u.iShiftBlue = 0)
    (h3 : su.iShiftRed = 0) (h4 : su.iShiftBlue = 0) :
    ((liquidStripes u fc).stripe_r = fract (liquidStripes u fc).direction ∧
     (liquidStripes u fc).stripe_g = fract (liquidStripes u fc).direction ∧
     (liquidStripes u fc).stripe_b = fract (liquidStripes u fc).direction) ∧
    ((sensorStripes su sfc).stripe_r = fract (sensorStripes su sfc).direction ∧
     (sensorStripes su sfc).stripe_g = fract (sensorStripes su sfc).direction ∧
     (sensorStripes su sfc).stripe_b = fract (sensorStripes su sfc).direction) := by
  constructor
  · refine ⟨?_, rfl, ?_⟩ <;>
      simp only [liquidStripes, h1, h2, zero_div, mul_zero, add_zero, sub_zero]
  · refine ⟨?_, rfl, ?_⟩ <;>
      simp only [sensorStripes, sensorMainCore, h3, h4, zero_div, mul_zero, add_zero,
        sub_zero]

/-- Witness for C3 at concrete uniforms with both shifts zero. -/
theorem stripes_unshifted_witness :
    (liquidStripes ⟨⟨1, 1⟩, 0, ⟨0, 0, 0, 1⟩, ⟨1, 1, 1, 0.5⟩, 0.5, 3, 0, 0, 0.2, 0.3, 45, 1⟩
        ⟨100, 50⟩).stripe_r =
      fract (liquidStripes
        ⟨⟨1, 1⟩, 0, ⟨0, 0, 0, 1⟩, ⟨1, 1, 1, 0.5⟩, 0.5, 3, 0, 0, 0.2, 0.3, 45, 1⟩
        ⟨100, 50⟩).direction :=
  (stripes_unshifted
    ⟨⟨1, 1⟩, 0, ⟨0, 0, 0, 1⟩, ⟨1, 1, 1, 0.5⟩, 0.5, 3, 0, 0, 0.2, 0.3, 45, 1⟩
    ⟨⟨⟨1, 1⟩, 0, ⟨0, 0, 0, 1⟩, ⟨1, 1, 1, 0.5⟩, ⟨1, 0.84, 0⟩, ⟨0.4, 0.25, 0⟩,
      0.5, 3, 0, 0, 0.2, 0.3, 45, 1⟩, 0.5, -0.5, 1⟩
    ⟨100, 50⟩ ⟨3, 4⟩ rfl rfl rfl rfl).1.1

/-- Claim C9: with `iSensorInfluence = 0`, the sensor shader's `main` is
independent of `iSensorX` and `iSensorY`: two runs differing only in the
sensor tilt values return the same RGBA color. -/
theorem sensorMain_sensor_independent (u : SensorUniforms) (sx sy sx' sy' : ℝ) (fc : Vec2)
    (h : u.iSensorInfluence = 0) :
    sensorMain { u with iSensorX := sx, iSensorY := sy } fc =
      sensorMain { u with iSensorX := sx', iSensorY := sy' } fc := by
  simp [sensorMain, h]

/-- Witness for C9 at concrete uniforms with zero influence and different
tilt values. -/
theorem sensorMain_sensor_independent_witness :
    sensorMain ⟨⟨⟨1, 1⟩, 0, ⟨0, 0, 0, 1⟩, ⟨1, 1, 1, 0.5⟩, ⟨1, 0.84, 0⟩, ⟨0.4, 0.25, 0⟩,
        0.5, 3, 0.4, 0.4, 0.2, 0.3, 45, 1⟩, 1, 2, 0⟩ ⟨5, 6⟩ =
      sensorMain ⟨⟨⟨1, 1⟩, 0, ⟨0, 0, 0, 1⟩, ⟨1, 1, 1, 0.5⟩, ⟨1, 0.84, 0⟩, ⟨0.4, 0.25, 0⟩,
        0.5, 3, 0.4, 0.4, 0.2, 0.3, 45, 1⟩, 3, 4, 0⟩ ⟨5, 6⟩ :=
  sensorMain_sensor_independent
    ⟨⟨⟨1, 1⟩, 0, ⟨0, 0, 0, 1⟩, ⟨1, 1, 1, 0.5⟩, ⟨1, 0.84, 0⟩, ⟨0.4, 0.25, 0⟩,
      0.5, 3, 0.4, 0.4, 0.2, 0.3, 45, 1⟩, 9, 9, 0⟩ 1 2 3 4 ⟨5, 6⟩ rfl

theorem one_sub_mem {s : ℝ} (hs : s ∈ Set.Icc (0:ℝ) 1) : 1 - s ∈ Set.Icc (0:ℝ) 1 :=
  ⟨by linarith [hs.2], by linarith [hs.1]⟩

/-- Claim C1: for `uv ∈ [0,1]²`, any time, contour in `[0,1]` and shape
selector in `{0,1,2,3,4}`, the shape edge evaluator returns a value in
`[0,1]`, and the two shader variants' copies of `getShapeEdge` agree. -/
theorem getShapeEdge_bounded (iShape iContour t : ℝ) (uv : Vec2)
    (_huvx : uv.x ∈ Set.Icc (0:ℝ) 1) (_huvy : uv.y ∈ Set.Icc (0:ℝ) 1)
    (_hc : iContour ∈ Set.Icc (0:ℝ) 1)
    (_hs : iShape = 0 ∨ iShape = 1 ∨ iShape = 2 ∨ iShape = 3 ∨ iShape = 4) :
    getShapeEdge iShape iContour uv t ∈ Set.Icc (0:ℝ) 1 ∧
    sensorGetShapeEdge iShape iContour uv t = getShapeEdge iShape iContour uv t := by
  refine ⟨?_, rfl⟩
  simp only [getShapeEdge]
  have key : ∀ E : ℝ, E ∈ Set.Icc (0:ℝ) 1 →
      mix (smoothstep 0.85 0.95 E) E (smoothstep 0 0.4 iContour) ∈ Set.Icc (0:ℝ) 1 :=
    fun E hE => mix_mem (smoothstep_mem _ _ _) hE (smoothstep_mem _ _ _)
  apply key
  split_ifs with h1 h2 h3 h4
  · exact clamp01_mem _
  · exact rpow_mem 18 (clamp01_mem _) (by norm_num)
  · exact ⟨mul_nonneg (smoothstep_mem _ _ _).1 (smoothstep_mem _ _ _).1,
      mul_le_one₀ (smoothstep_mem _ _ _).2 (smoothstep_mem _ _ _).1
        (smoothstep_mem _ _ _).2⟩
  · exact clamp01_mem _
  · exact rpow_mem 4 (one_sub_mem (smoothstep_mem _ _ _)) (by norm_num)

/-- Witness for C1 at `uv = (0.5, 0.5)`, shape 0, contour 0, time 0. -/
theorem getShapeEdge_bounded_witness :
    getShapeEdge 0 0 ⟨0.5, 0.5⟩ 0 ∈ Set.Icc (0:ℝ) 1 :=
  (getShapeEdge_bounded 0 0 0 ⟨0.5, 0.5⟩
    (by show (0.5:ℝ) ∈ Set.Icc (0:ℝ) 1; norm_num [Set.mem_Icc])
    (by show (0.5:ℝ) ∈ Set.Icc (0:ℝ) 1; norm_num [Set.mem_Icc])
    (by norm_num [Set.mem_Icc]) (Or.inl rfl)).1

/-! ## Bounds for `perlinNoise` (claim C8, Perlin half)

The noise value is a bilinear blend (with quintic weights in `[0,1]`) of
four gradient/offset dot products.  Splitting the blend into its x- and
y-contributions, each is bounded by `(1-u)·f + u·(1-f) ≤ 1/2`, giving
`|perlinNoise| ≤ 1`. -/

theorem fract_nonneg' (x : ℝ) : 0 ≤ fract x := Int.fract_nonneg x

theorem fract_lt_one' (x : ℝ) : fract x < 1 := Int.fract_lt_one x

theorem hash_abs_le (z : ℝ) : |-1 + 2 * fract z| ≤ 1 :=
  abs_le.2 ⟨by linarith [fract_nonneg' z], by linarith [fract_lt_one' z]⟩

theorem quintic_mem (f : ℝ) (h0 : 0 ≤ f) (h1 : f ≤ 1) :
    0 ≤ f*f*f*(f*(f*6-15)+10) ∧ f*f*f*(f*(f*6-15)+10) ≤ 1 := by
  constructor
  · have h2 : 0 ≤ f*f*f := by positivity
    nlinarith [mul_nonneg h2 (sq_nonneg (f - 5/4)), h2]
  · have h3 : 0 ≤ (1-f)^3 := pow_nonneg (by linarith) 3
    have h4 : 0 ≤ 6*f^2 + 3*f + 1 := by positivity
    nlinarith [mul_nonneg h3 h4]

theorem axis_bound (f : ℝ) (h0 : 0 ≤ f) (h1 : f ≤ 1) :
    (1 - f*f*f*(f*(f*6-15)+10)) * f + (f*f*f*(f*(f*6-15)+10)) * (1 - f) ≤ 1/2 := by
  have hP : 0 ≤ 6*(f*f - f)^2 + 2*(f - f*f) + 1 := by
    nlinarith [sq_nonneg (f*f - f), mul_nonneg h0 (sub_nonneg.2 h1)]
  nlinarith [mul_nonneg (sq_nonneg (1 - 2*f)) hP]

theorem weighted_abs_le {w g d m : ℝ} (hw : 0 ≤ w) (hg : |g| ≤ 1) (hd : |d| ≤ m) :
    |w * (g * d)| ≤ w * m := by
  have hm : 0 ≤ m := le_trans (abs_nonneg d) hd
  rw [abs_mul, abs_mul, abs_of_nonneg hw]
  have h1 : |g| * |d| ≤ 1 * m :=
    mul_le_mul hg hd (abs_nonneg d) zero_le_one
  rw [one_mul] at h1
  exact mul_le_mul_of_nonneg_left h1 hw

theorem convex2_abs_le {u A B S : ℝ} (hu0 : 0 ≤ u) (hu1 : u ≤ 1)
    (hA : |A| ≤ S) (hB : |B| ≤ S) : |(1 - u) * A + u * B| ≤ S := by
  calc |(1 - u) * A + u * B| ≤ |(1 - u) * A| + |u * B| := abs_add _ _
    _ = (1 - u) * |A| + u * |B| := by
        rw [abs_mul, abs_mul, abs_of_nonneg (by linarith : (0:ℝ) ≤ 1 - u),
          abs_of_nonneg hu0]
    _ ≤ (1 - u) * S + u * S :=
        add_le_add (mul_le_mul_of_nonneg_left hA (by linarith))
          (mul_le_mul_of_nonneg_left hB hu0)
    _ = S := by ring

/-- Core bound for the Perlin bilinear blend, stated in the exact shape of
the unfolded `perlinNoise` body. -/
theorem perlin_core (fx fy ux uy gax gay gbx gby gcx gcy gdx gdy : ℝ)
    (hfx0 : 0 ≤ fx) (hfx1 : fx ≤ 1) (hfy0 : 0 ≤ fy) (hfy1 : fy ≤ 1)
    (hux0 : 0 ≤ ux) (hux1 : ux ≤ 1) (huy0 : 0 ≤ uy) (huy1 : uy ≤ 1)
    (hax : (1 - ux) * fx + ux * (1 - fx) ≤ 1/2)
    (hay : (1 - uy) * fy + uy * (1 - fy) ≤ 1/2)
    (hga : |gax| ≤ 1) (hga' : |gay| ≤ 1) (hgb : |gbx| ≤ 1) (hgb' : |gby| ≤ 1)
    (hgc : |gcx| ≤ 1) (hgc' : |gcy| ≤ 1) (hgd : |gdx| ≤ 1) (hgd' : |gdy| ≤ 1) :
    |gax * (fx - 0) + gay * (fy - 0) +
      ux * (gbx * (fx - 1) + gby * (fy - 0) - (gax * (fx - 0) + gay * (fy - 0))) +
      uy * (gcx * (fx - 0) + gcy * (fy - 1) - (gax * (fx - 0) + gay * (fy - 0))) +
      ux * uy * (gax * (fx - 0) + gay * (fy - 0) - (gbx * (fx - 1) + gby * (fy - 0)) -
        (gcx * (fx - 0) + gcy * (fy - 1)) + (gdx * (fx - 1) + gdy * (fy - 1)))| ≤ 1 := by
  have hfx' : |fx| ≤ fx := le_of_eq (abs_of_nonneg hfx0)
  have hfx'' : |fx - 1| ≤ 1 - fx := by rw [abs_of_nonpos (by linarith)]; linarith
  have hfy' : |fy| ≤ fy := le_of_eq (abs_of_nonneg hfy0)
  have hfy'' : |fy - 1| ≤ 1 - fy := by rw [abs_of_nonpos (by linarith)]; linarith
  have hinner1 : |(1 - ux) * (gax * fx) + ux * (gbx * (fx - 1))| ≤
      (1 - ux) * fx + ux * (1 - fx) := by
    calc |(1 - ux) * (gax * fx) + ux * (gbx * (fx - 1))|
        ≤ |(1 - ux) * (gax * fx)| + |ux * (gbx * (fx - 1))| := abs_add _ _
      _ ≤ (1 - ux) * fx + ux * (1 - fx) :=
          add_le_add (weighted_abs_le (by linarith) hga hfx')
            (weighted_abs_le hux0 hgb hfx'')
  have hinner2 : |(1 - ux) * (gcx * fx) + ux * (gdx * (fx - 1))| ≤
      (1 - ux) * fx + ux * (1 - fx) := by
    calc |(1 - ux) * (gcx * fx) + ux * (gdx * (fx - 1))|
        ≤ |(1 - ux) * (gcx * fx)| + |ux * (gdx * (fx - 1))| := abs_add _ _
      _ ≤ (1 - ux) * fx + ux * (1 - fx) :=
          add_le_add (weighted_abs_le (by linarith) hgc hfx')
            (weighted_abs_le hux0 hgd hfx'')
  have hinner1y : |(1 - ux) * (gay * fy) + ux * (gby * fy)| ≤ fy := by
    calc |(1 - ux) * (gay * fy) + ux * (gby * fy)|
        ≤ |(1 - ux) * (gay * fy)| + |ux * (gby * fy)| := abs_add _ _
      _ ≤ (1 - ux) * fy + ux * fy :=
          add_le_add (weighted_abs_le (by linarith) hga' hfy')
            (weighted_abs_le hux0 hgb' hfy')
      _ = fy := by ring
  have hinner2y : |(1 - ux) * (gcy * (fy - 1)) + ux * (gdy * (fy - 1))| ≤ 1 - fy := by
    calc |(1 - ux) * (gcy * (fy - 1)) + ux * (gdy * (fy - 1))|
        ≤ |(1 - ux) * (gcy * (fy - 1))| + |ux * (gdy * (fy - 1))| := abs_add _ _
      _ ≤ (1 - ux) * (1 - fy) + ux * (1 - fy) :=
          add_le_add (weighted_abs_le (by linarith) hgc' hfy'')
            (weighted_abs_le hux0 hgd' hfy'')
      _ = 1 - fy := by ring
  have hX : |(1 - uy) * ((1 - ux) * (gax * fx) + ux * (gbx * (fx - 1))) +
      uy * ((1 - ux) * (gcx * fx) + ux * (gdx * (fx - 1)))| ≤ 1/2 :=
    le_trans (convex2_abs_le huy0 huy1 hinner1 hinner2) hax
  have hY : |(1 - uy) * ((1 - ux) * (gay * fy) + ux * (gby * fy)) +
      uy * ((1 - ux) * (gcy * (fy - 1)) + ux * (gdy * (fy - 1)))| ≤ 1/2 := by
    have key : ∀ AA BB : ℝ, |AA| ≤ fy → |BB| ≤ 1 - fy →
        |(1 - uy) * AA + uy * BB| ≤ (1 - uy) * fy + uy * (1 - fy) := by
      intro AA BB hAA hBB
      calc |(1 - uy) * AA + uy * BB| ≤ |(1 - uy) * AA| + |uy * BB| := abs_add _ _
        _ = (1 - uy) * |AA| + uy * |BB| := by
            rw [abs_mul, abs_mul, abs_of_nonneg (by linarith : (0:ℝ) ≤ 1 - uy),
              abs_of_nonneg huy0]
        _ ≤ (1 - uy) * fy + uy * (1 - fy) :=
            add_le_add (mul_le_mul_of_nonneg_left hAA (by linarith))
              (mul_le_mul_of_nonneg_left hBB huy0)
    exact le_trans (key _ _ hinner1y hinner2y) hay
  have hsplit : gax * (fx - 0) + gay * (fy - 0) +
      ux * (gbx * (fx - 1) + gby * (fy - 0) - (gax * (fx - 0) + gay * (fy - 0))) +
      uy * (gcx * (fx - 0) + gcy * (fy - 1) - (gax * (fx - 0) + gay * (fy - 0))) +
      ux * uy * (gax * (fx - 0) + gay * (fy - 0) - (gbx * (fx - 1) + gby * (fy - 0)) -
        (gcx * (fx - 0) + gcy * (fy - 1)) + (gdx * (fx - 1) + gdy * (fy - 1))) =
      ((1 - uy) * ((1 - ux) * (gax * fx) + ux * (gbx * (fx - 1))) +
        uy * ((1 - ux) * (gcx * fx) + ux * (gdx * (fx - 1)))) +
      ((1 - uy) * ((1 - ux) * (gay * fy) + ux * (gby * fy)) +
        uy * ((1 - ux) * (gcy * (fy - 1)) + ux * (gdy * (fy - 1)))) := by ring
  rw [hsplit]
  refine le_trans (abs_add _ _) ?_
  linarith [hX, hY]

/-- The Perlin noise of the sensor shader is bounded by 1 in absolute
value, for every input point. -/
theorem perlinNoise_abs_le (p : Vec2) : |perlinNoise p| ≤ 1 := by
  simp only [perlinNoise, hash2]
  exact perlin_core _ _ _ _ _ _ _ _ _ _ _ _
    (fract_nonneg' p.x) (fract_lt_one' p.x).le (fract_nonneg' p.y) (fract_lt_one' p.y).le
    (quintic_mem (fract p.x) (fract_nonneg' p.x) (fract_lt_one' p.x).le).1
    (quintic_mem (fract p.x) (fract_nonneg' p.x) (fract_lt_one' p.x).le).2
    (quintic_mem (fract p.y) (fract_nonneg' p.y) (fract_lt_one' p.y).le).1
    (quintic_mem (fract p.y) (fract_nonneg' p.y) (fract_lt_one' p.y).le).2
    (axis_bound (fract p.x) (fract_nonneg' p.x) (fract_lt_one' p.x).le)
    (axis_bound (fract p.y) (fract_nonneg' p.y) (fract_lt_one' p.y).le)
    (hash_abs_le _) (hash_abs_le _) (hash_abs_le _) (hash_abs_le _)
    (hash_abs_le _) (hash_abs_le _) (hash_abs_le _) (hash_abs_le _)

/-! ## Bounds for `snoise` (claim C8, simplex half)

Per corner, the contribution is `m⁴ · taper · (a·X + h·Y)` where the
gradient `(a, h)` satisfies `|a| + |h| = 1/2` (so `a² + h² ≤ 1/4`), and
`taper·|(a,h)| ≤ 0.7898` on that disc; Cauchy-Schwarz then bounds each
contribution by `0.7898 · noiseEnvelope s` with `s` the squared corner
distance.  The three corner distances satisfy pairwise and total lower
bounds coming from the fixed simplex geometry, under which the sum of
envelopes is bounded by `0.01168`, giving `|snoise| ≤ 130 · 0.7898 ·
0.01168 < 1.2`. -/

theorem noiseEnvelope_nonneg (s : ℝ) : 0 ≤ noiseEnvelope s :=
  mul_nonneg (pow_nonneg (le_max_right _ _) 4) (Real.sqrt_nonneg s)

theorem envelope_le_core (s l u r : ℝ) (hl : l ≤ s) (hu : s ≤ u) (hr0 : 0 ≤ r)
    (hur : u ≤ r ^ 2) (hl2 : l ≤ 0.5) :
    noiseEnvelope s ≤ (0.5 - l) ^ 4 * r := by
  have hm : max (0.5 - s) 0 ≤ 0.5 - l := max_le (by linarith) (by linarith)
  have hs : Real.sqrt s ≤ r := by
    calc Real.sqrt s ≤ Real.sqrt (r ^ 2) := Real.sqrt_le_sqrt (le_trans hu hur)
      _ = r := Real.sqrt_sq hr0
  simp only [noiseEnvelope]
  exact mul_le_mul (pow_le_pow_left₀ (le_max_right _ _) hm 4) hs
    (Real.sqrt_nonneg s) (by positivity)

theorem envelope_tail_core (s t : ℝ) (hts : t ≤ s) (ht2 : t ≤ 0.5) :
    noiseEnvelope s ≤ (0.5 - t) ^ 4 * 0.70711 := by
  rcases le_total s 0.5 with H | H
  · exact envelope_le_core s t 0.5 0.70711 hts H (by norm_num) (by norm_num) ht2
  · have hz : max (0.5 - s) 0 = 0 := max_eq_right (by linarith)
    simp only [noiseEnvelope, hz]
    rw [zero_pow (by norm_num), zero_mul]
    positivity

theorem envelope_interval (s l u r c : ℝ) (hl : l ≤ s) (hu : s ≤ u) (hr0 : 0 ≤ r)
    (hur : u ≤ r ^ 2) (hl2 : l ≤ 0.5) (hc : (0.5 - l) ^ 4 * r ≤ c) :
    noiseEnvelope s ≤ c :=
  le_trans (envelope_le_core s l u r hl hu hr0 hur hl2) hc

theorem envelope_split (s m t r c : ℝ) (hm : m ≤ s) (hmt : m ≤ t) (ht2 : t ≤ 0.5)
    (hr0 : 0 ≤ r) (htr : t ≤ r ^ 2) (hc1 : (0.5 - m) ^ 4 * r ≤ c)
    (hc2 : (0.5 - t) ^ 4 * 0.70711 ≤ c) :
    noiseEnvelope s ≤ c := by
  rcases le_total s t with H | H
  · exact le_trans (envelope_le_core s m t r hm H hr0 htr (by linarith)) hc1
  · exact le_trans (envelope_tail_core s t H ht2) hc2

/-- The simplex gradient seed `x ∈ [-1,1)` gives `|a| + |h| = 1/2` for
`a = x - floor(x + 0.5)` and `h = |x| - 0.5`. -/
theorem grad_ell1 (x : ℝ) (h1 : -1 ≤ x) (h2 : x < 1) :
    |x - gfloor (x + 0.5)| + |(|x| - 0.5)| = 1/2 := by
  rcases lt_or_le x (-(1/2)) with hc | hc
  · have hf : ⌊x + (0.5:ℝ)⌋ = -1 := by
      rw [Int.floor_eq_iff]
      constructor <;> · push_cast; linarith
    have hax : |x| = -x := abs_of_neg (by linarith)
    rw [show gfloor (x + 0.5) = ((-1 : ℤ) : ℝ) by rw [gfloor, hf], hax]
    push_cast
    rw [abs_of_nonneg (by linarith), abs_of_nonneg (by linarith)]
    ring
  · rcases lt_or_le x 0 with hc2 | hc2
    · have hf : ⌊x + (0.5:ℝ)⌋ = 0 := by
        rw [Int.floor_eq_iff]
        constructor <;> · push_cast; linarith
      have hax : |x| = -x := abs_of_neg hc2
      rw [show gfloor (x + 0.5) = ((0 : ℤ) : ℝ) by rw [gfloor, hf], hax]
      push_cast
      rw [abs_of_nonpos (by linarith), abs_of_nonpos (by linarith)]
      ring
    · rcases lt_or_le x (1/2) with hc3 | hc3
      · have hf : ⌊x + (0.5:ℝ)⌋ = 0 := by
          rw [Int.floor_eq_iff]
          constructor <;> · push_cast; linarith
        have hax : |x| = x := abs_of_nonneg hc2
        rw [show gfloor (x + 0.5) = ((0 : ℤ) : ℝ) by rw [gfloor, hf], hax]
        push_cast
        rw [abs_of_nonneg (by linarith), abs_of_nonpos (by linarith)]
        ring
      · have hf : ⌊x + (0.5:ℝ)⌋ = 1 := by
          rw [Int.floor_eq_iff]
          constructor <;> · push_cast; linarith
        have hax : |x| = x := abs_of_nonneg hc2
        rw [show gfloor (x + 0.5) = ((1 : ℤ) : ℝ) by rw [gfloor, hf], hax]
        push_cast
        rw [abs_of_nonpos (by linarith), abs_of_nonneg (by linarith)]
        ring

/-- Consequently `a² + h² ≤ 1/4` (stated in the product form the shader
term uses). -/
theorem grad_sumsq (x : ℝ) (h1 : -1 ≤ x) (h2 : x < 1) :
    (x - gfloor (x + 0.5)) * (x - gfloor (x + 0.5)) + (|x| - 0.5) * (|x| - 0.5) ≤ 1/4 := by
  have h := grad_ell1 x h1 h2
  nlinarith [h, mul_nonneg (abs_nonneg (x - gfloor (x + 0.5))) (abs_nonneg (|x| - 0.5)),
    abs_mul_abs_self (x - gfloor (x + 0.5)), abs_mul_abs_self (|x| - 0.5)]

/-- The taper factor squared, times the gradient norm squared, is at most
`0.7898²` on the quarter disc. -/
theorem taper_sq_bound (z : ℝ) (h0 : 0 ≤ z) (h4 : z ≤ 1/4) :
    (1.79284291400159 - 0.85373472095314 * z) ^ 2 * z ≤ 0.7898 ^ 2 := by
  have hlin : 1.79284291400159 - 0.85373472095314 * (1/2) ≤
      1.79284291400159 - 0.85373472095314 * (z + 1/4) := by linarith
  have hG : 0 ≤ (1.79284291400159 - 0.85373472095314 * (z + 1/4)) ^ 2 -
      0.85373472095314 ^ 2 * z / 4 := by
    nlinarith [hlin, sq_nonneg (1.79284291400159 - 0.85373472095314 * (z + 1/4))]
  nlinarith [mul_nonneg (by linarith : (0:ℝ) ≤ 1/4 - z) hG]

/-- Per-corner Cauchy-Schwarz bound: taper times gradient dot offset is at
most `0.7898` times the corner distance. -/
theorem corner_bound (a h X Y : ℝ) (hsum : a * a + h * h ≤ 1/4) :
    (1.79284291400159 - 0.85373472095314 * (a * a + h * h)) * |a * X + h * Y| ≤
      0.7898 * Real.sqrt (X * X + Y * Y) := by
  have hT0 : (0:ℝ) <
      1.79284291400159 - 0.85373472095314 * (a * a + h * h) := by nlinarith
  have hs0 : (0:ℝ) ≤ X * X + Y * Y := add_nonneg (mul_self_nonneg X) (mul_self_nonneg Y)
  have hCS : (a * X + h * Y) ^ 2 ≤ (a * a + h * h) * (X * X + Y * Y) := by
    nlinarith [sq_nonneg (a * Y - h * X)]
  have hz0 : (0:ℝ) ≤ a * a + h * h := add_nonneg (mul_self_nonneg a) (mul_self_nonneg h)
  have htz := taper_sq_bound (a * a + h * h) hz0 hsum
  have h2 : ((1.79284291400159 - 0.85373472095314 * (a * a + h * h)) *
      |a * X + h * Y|) ^ 2 ≤ 0.7898 ^ 2 * (X * X + Y * Y) := by
    have e1 : ((1.79284291400159 - 0.85373472095314 * (a * a + h * h)) *
        |a * X + h * Y|) ^ 2 =
        (1.79284291400159 - 0.85373472095314 * (a * a + h * h)) ^ 2 *
          (a * X + h * Y) ^ 2 := by rw [mul_pow, sq_abs]
    rw [e1]
    calc (1.79284291400159 - 0.85373472095314 * (a * a + h * h)) ^ 2 *
        (a * X + h * Y) ^ 2
        ≤ (1.79284291400159 - 0.85373472095314 * (a * a + h * h)) ^ 2 *
          ((a * a + h * h) * (X * X + Y * Y)) :=
          mul_le_mul_of_nonneg_left hCS (sq_nonneg _)
      _ = ((1.79284291400159 - 0.85373472095314 * (a * a + h * h)) ^ 2 *
          (a * a + h * h)) * (X * X + Y * Y) := by ring
      _ ≤ 0.7898 ^ 2 * (X * X + Y * Y) := mul_le_mul_of_nonneg_right htz hs0
  have hTg : (0:ℝ) ≤ (1.79284291400159 - 0.85373472095314 * (a * a + h * h)) *
      |a * X + h * Y| := mul_nonneg hT0.le (abs_nonneg _)
  have hfin := Real.sqrt_le_sqrt h2
  rw [Real.sqrt_sq hTg] at hfin
  have e2 : Real.sqrt ((0.7898:ℝ) ^ 2 * (X * X + Y * Y)) =
      0.7898 * Real.sqrt (X * X + Y * Y) := by
    rw [Real.sqrt_mul (by positivity), Real.sqrt_sq (by norm_num)]
  rw [e2] at hfin
  exact hfin

set_option maxHeartbeats 1600000 in
theorem envSum_cell0 (s0 s1 s2 : ℝ) (_h01 : s0 ≤ s1) (_h12 : s1 ≤ s2)
    (hp : 0.3333 ≤ s0 + s1) (ht : 0.6666 ≤ s0 + s1 + s2)
    (hl0 : 0 ≤ s0) (hu0 : s0 ≤ 0.015625) :
    noiseEnvelope s0 + noiseEnvelope s1 + noiseEnvelope s2 ≤ 0.01168 := by
  have e0 : noiseEnvelope s0 ≤ 0.007813125 :=
    envelope_interval s0 0 0.015625 0.12501 0.007813125 (by linarith)
      (by linarith) (by norm_num) (by norm_num) (by norm_num) (by norm_num)
  have e1 : noiseEnvelope s1 ≤ 0.000632569 :=
    envelope_split s1 0.317675 0.327675 0.57243 0.000632569 (by linarith)
      (by norm_num) (by norm_num) (by norm_num) (by norm_num) (by norm_num) (by norm_num)
  have e2 : noiseEnvelope s2 ≤ 0.000632569 :=
    envelope_split s2 0.317675 0.327675 0.57243 0.000632569 (by linarith)
      (by norm_num) (by norm_num) (by norm_num) (by norm_num) (by norm_num) (by norm_num)
  linarith [e0, e1, e2]

set_option maxHeartbeats 1600000 in
theorem envSum_cell1 (s0 s1 s2 : ℝ) (_h01 : s0 ≤ s1) (_h12 : s1 ≤ s2)
    (hp : 0.3333 ≤ s0 + s1) (ht : 0.6666 ≤ s0 + s1 + s2)
    (hl0 : 0.015625 ≤ s0) (hu0 : s0 ≤ 0.03125) :
    noiseEnvelope s0 + noiseEnvelope s1 + noiseEnvelope s2 ≤ 0.01168 := by
  have e0 : noiseEnvelope s0 ≤ 0.009731057 :=
    envelope_interval s0 0.015625 0.03125 0.17678 0.009731057 (by linarith)
      (by linarith) (by norm_num) (by norm_num) (by norm_num) (by norm_num)
  have e1 : noiseEnvelope s1 ≤ 0.000871341 :=
    envelope_split s1 0.30205 0.32205 0.5675 0.000871341 (by linarith)
      (by norm_num) (by norm_num) (by norm_num) (by norm_num) (by norm_num) (by norm_num)
  have e2 : noiseEnvelope s2 ≤ 0.000871341 :=
    envelope_split s2 0.30205 0.32205 0.5675 0.000871341 (by linarith)
      (by norm_num) (by norm_num) (by norm_num) (by norm_num) (by norm_num) (by norm_num)
  linarith [e0, e1, e2]

set_option maxHeartbeats 1600000 in
theorem envSum_cell2 (s0 s1 s2 : ℝ) (_h01 : s0 ≤ s1) (_h12 : s1 ≤ s2)
    (hp : 0.3333 ≤ s0 + s1) (ht : 0.6666 ≤ s0 + s1 + s2)
    (hl0 : 0.03125 ≤ s0) (hu0 : s0 ≤ 0.0390625) :
    noiseEnvelope s0 + noiseEnvelope s1 + noiseEnvelope s2 ≤ 0.01168 := by
  have e0 : noiseEnvelope s0 ≤ 0.009542496 :=
    envelope_interval s0 0.03125 0.0390625 0.19765 0.009542496 (by linarith)
      (by linarith) (by norm_num) (by norm_num) (by norm_num) (by norm_num)
  have e1 : noiseEnvelope s1 ≤ 0.001004836 :=
    envelope_split s1 0.2942375 0.3142375 0.56057 0.001004836 (by linarith)
      (by norm_num) (by norm_num) (by norm_num) (by norm_num) (by norm_num) (by norm_num)
  have e2 : noiseEnvelope s2 ≤ 0.001004836 :=
    envelope_split s2 0.2942375 0.3142375 0.56057 0.001004836 (by linarith)
      (by norm_num) (by norm_num) (by norm_num) (by norm_num) (by norm_num) (by norm_num)
  linarith [e0, e1, e2]

set_option maxHeartbeats 1600000 in
theorem envSum_cell3 (s0 s1 s2 : ℝ) (_h01 : s0 ≤ s1) (_h12 : s1 ≤ s2)
    (hp : 0.3333 ≤ s0 + s1) (ht : 0.6666 ≤ s0 + s1 + s2)
    (hl0 : 0.0390625 ≤ s0) (hu0 : s0 ≤ 0.046875) :
    noiseEnvelope s0 + noiseEnvelope s1 + noiseEnvelope s2 ≤ 0.01168 := by
  rcases le_total s1 0.30205 with hu1 | hl1_1
  ·
    have e0 : noiseEnvelope s0 ≤ 0.009773411 :=
      envelope_interval s0 0.0390625 0.046875 0.21651 0.009773411 (by linarith)
        (by linarith) (by norm_num) (by norm_num) (by norm_num) (by norm_num)
    have e1 : noiseEnvelope s1 ≤ 0.001143533 :=
      envelope_interval s1 0.286425 0.30205 0.5496 0.001143533 (by linarith)
        (by linarith) (by norm_num) (by norm_num) (by norm_num) (by norm_num)
    have e2 : noiseEnvelope s2 ≤ 0.000632569 :=
      envelope_split s2 0.317675 0.327675 0.57243 0.000632569 (by linarith)
        (by norm_num) (by norm_num) (by norm_num) (by norm_num) (by norm_num) (by norm_num)
    linarith [e0, e1, e2]
  ·
    have e0 : noiseEnvelope s0 ≤ 0.009773411 :=
      envelope_interval s0 0.0390625 0.046875 0.21651 0.009773411 (by linarith)
        (by linarith) (by norm_num) (by norm_num) (by norm_num) (by norm_num)
    have e1 : noiseEnvelope s1 ≤ 0.000871341 :=
      envelope_split s1 0.30205 0.32205 0.5675 0.000871341 (by linarith)
        (by norm_num) (by norm_num) (by norm_num) (by norm_num) (by norm_num) (by norm_num)
    have e2 : noiseEnvelope s2 ≤ 0.000871341 :=
      envelope_split s2 0.30205 0.32205 0.5675 0.000871341 (by linarith)
        (by norm_num) (by norm_num) (by norm_num) (by norm_num) (by norm_num) (by norm_num)
    linarith [e0, e1, e2]

set_option maxHeartbeats 1600000 in
theorem envSum_cell4 (s0 s1 s2 : ℝ) (_h01 : s0 ≤ s1) (_h12 : s1 ≤ s2)
    (hp : 0.3333 ≤ s0 + s1) (ht : 0.6666 ≤ s0 + s1 + s2)
    (hl0 : 0.046875 ≤ s0) (hu0 : s0 ≤ 0.0546875) :
    noiseEnvelope s0 + noiseEnvelope s1 + noiseEnvelope s2 ≤ 0.01168 := by
  rcases le_total s1 0.28251875 with hu1 | hl1_1
  ·
    have e0 : noiseEnvelope s0 ≤ 0.009858891 :=
      envelope_interval s0 0.046875 0.0546875 0.23386 0.009858891 (by linarith)
        (by linarith) (by norm_num) (by norm_num) (by norm_num) (by norm_num)
    have e1 : noiseEnvelope s1 ≤ 0.001276851 :=
      envelope_interval s1 0.2786125 0.28251875 0.53153 0.001276851 (by linarith)
        (by linarith) (by norm_num) (by norm_num) (by norm_num) (by norm_num)
    have e2 : noiseEnvelope s2 ≤ 0.000493555 :=
      envelope_split s2 0.32939375 0.33939375 0.58258 0.000493555 (by linarith)
        (by norm_num) (by norm_num) (by norm_num) (by norm_num) (by norm_num) (by norm_num)
    linarith [e0, e1, e2]
  ·
    rcases le_total s1 0.29033125 with hu1 | hl1_2
    ·
      have e0 : noiseEnvelope s0 ≤ 0.009858891 :=
        envelope_interval s0 0.046875 0.0546875 0.23386 0.009858891 (by linarith)
          (by linarith) (by norm_num) (by norm_num) (by norm_num) (by norm_num)
      have e1 : noiseEnvelope s1 ≤ 0.001205422 :=
        envelope_interval s1 0.28251875 0.29033125 0.53883 0.001205422 (by linarith)
          (by linarith) (by norm_num) (by norm_num) (by norm_num) (by norm_num)
      have e2 : noiseEnvelope s2 ≤ 0.000583531 :=
        envelope_split s2 0.32158125 0.33158125 0.57584 0.000583531 (by linarith)
          (by norm_num) (by norm_num) (by norm_num) (by norm_num) (by norm_num) (by norm_num)
      linarith [e0, e1, e2]
    ·
      rcases le_total s1 0.29814375 with hu1 | hl1_3
      ·
        have e0 : noiseEnvelope s0 ≤ 0.009858891 :=
          envelope_interval s0 0.046875 0.0546875 0.23386 0.009858891 (by linarith)
            (by linarith) (by norm_num) (by norm_num) (by norm_num) (by norm_num)
        have e1 : noiseEnvelope s1 ≤ 0.001055241 :=
          envelope_interval s1 0.29033125 0.29814375 0.54603 0.001055241 (by linarith)
            (by linarith) (by norm_num) (by norm_num) (by norm_num) (by norm_num)
        have e2 : noiseEnvelope s2 ≤ 0.000684432 :=
          envelope_split s2 0.31376875 0.32376875 0.56901 0.000684432 (by linarith)
            (by norm_num) (by norm_num) (by norm_num) (by norm_num) (by norm_num) (by norm_num)
        linarith [e0, e1, e2]
      ·
        rcases le_total s1 0.30595625 with hu1 | hl1_4
        ·
          have e0 : noiseEnvelope s0 ≤ 0.009858891 :=
            envelope_interval s0 0.046875 0.0546875 0.23386 0.009858891 (by linarith)
              (by linarith) (by norm_num) (by norm_num) (by norm_num) (by norm_num)
          have e1 : noiseEnvelope s1 ≤ 0.000918341 :=
            envelope_interval s1 0.29814375 0.30595625 0.55314 0.000918341 (by linarith)
              (by linarith) (by norm_num) (by norm_num) (by norm_num) (by norm_num)
          have e2 : noiseEnvelope s2 ≤ 0.000809435 :=
            envelope_split s2 0.30595625 0.32595625 0.57093 0.000809435 (by linarith)
              (by norm_num) (by norm_num) (by norm_num) (by norm_num) (by norm_num) (by norm_num)
          linarith [e0, e1, e2]
        ·
          have e0 : noiseEnvelope s0 ≤ 0.009858891 :=
            envelope_interval s0 0.046875 0.0546875 0.23386 0.009858891 (by linarith)
              (by linarith) (by norm_num) (by norm_num) (by norm_num) (by norm_num)
          have e1 : noiseEnvelope s1 ≤ 0.000809435 :=
            envelope_split s1 0.30595625 0.32595625 0.57093 0.000809435 (by linarith)
              (by norm_num) (by norm_num) (by norm_num) (by norm_num) (by norm_num) (by norm_num)
          have e2 : noiseEnvelope s2 ≤ 0.000809435 :=
            envelope_split s2 0.30595625 0.32595625 0.57093 0.000809435 (by linarith)
              (by norm_num) (by norm_num) (by norm_num) (by norm_num) (by norm_num) (by norm_num)
          linarith [e0, e1, e2]

set_option maxHeartbeats 1600000 in
theorem envSum_cell5 (s0 s1 s2 : ℝ) (_h01 : s0 ≤ s1) (_h12 : s1 ≤ s2)
    (hp : 0.3333 ≤ s0 + s1) (ht : 0.6666 ≤ s0 + s1 + s2)
    (hl0 : 0.0546875 ≤ s0) (hu0 : s0 ≤ 0.05859375) :
    noiseEnvelope s0 + noiseEnvelope s1 + noiseEnvelope s2 ≤ 0.01168 := by
  rcases le_total s1 0.29033125 with hu1 | hl1_1
  ·
    have e0 : noiseEnvelope s0 ≤ 0.009519202 :=
      envelope_interval s0 0.0546875 0.05859375 0.24207 0.009519202 (by linarith)
        (by linarith) (by norm_num) (by norm_num) (by norm_num) (by norm_num)
    have e1 : noiseEnvelope s1 ≤ 0.001388189 :=
      envelope_interval s1 0.27470625 0.29033125 0.53883 0.001388189 (by linarith)
        (by linarith) (by norm_num) (by norm_num) (by norm_num) (by norm_num)
    have e2 : noiseEnvelope s2 ≤ 0.000632569 :=
      envelope_split s2 0.317675 0.327675 0.57243 0.000632569 (by linarith)
        (by norm_num) (by norm_num) (by norm_num) (by norm_num) (by norm_num) (by norm_num)
    linarith [e0, e1, e2]
  ·
    have e0 : noiseEnvelope s0 ≤ 0.009519202 :=
      envelope_interval s0 0.0546875 0.05859375 0.24207 0.009519202 (by linarith)
        (by linarith) (by norm_num) (by norm_num) (by norm_num) (by norm_num)
    have e1 : noiseEnvelope s1 ≤ 0.001076596 :=
      envelope_split s1 0.29033125 0.31033125 0.55708 0.001076596 (by linarith)
        (by norm_num) (by norm_num) (by norm_num) (by norm_num) (by norm_num) (by norm_num)
    have e2 : noiseEnvelope s2 ≤ 0.001076596 :=
      envelope_split s2 0.29033125 0.31033125 0.55708 0.001076596 (by linarith)
        (by norm_num) (by norm_num) (by norm_num) (by norm_num) (by norm_num) (by norm_num)
    linarith [e0, e1, e2]

set_option maxHeartbeats 1600000 in
theorem envSum_cell6 (s0 s1 s2 : ℝ) (_h01 : s0 ≤ s1) (_h12 : s1 ≤ s2)
    (hp : 0.3333 ≤ s0 + s1) (ht : 0.6666 ≤ s0 + s1 + s2)
    (hl0 : 0.05859375 ≤ s0) (hu0 : s0 ≤ 0.0625) :
    noiseEnvelope s0 + noiseEnvelope s1 + noiseEnvelope s2 ≤ 0.01168 := by
  rcases le_total s1 0.286425 with hu1 | hl1_1
  ·
    have e0 : noiseEnvelope s0 ≤ 0.009490986 :=
      envelope_interval s0 0.05859375 0.0625 0.25001 0.009490986 (by linarith)
        (by linarith) (by norm_num) (by norm_num) (by norm_num) (by norm_num)
    have e1 : noiseEnvelope s1 ≤ 0.001476953 :=
      envelope_interval s1 0.2708 0.286425 0.53519 0.001476953 (by linarith)
        (by linarith) (by norm_num) (by norm_num) (by norm_num) (by norm_num)
    have e2 : noiseEnvelope s2 ≤ 0.000632569 :=
      envelope_split s2 0.317675 0.327675 0.57243 0.000632569 (by linarith)
        (by norm_num) (by norm_num) (by norm_num) (by norm_num) (by norm_num) (by norm_num)
    linarith [e0, e1, e2]
  ·
    rcases le_total s1 0.30205 with hu1 | hl1_2
    ·
      have e0 : noiseEnvelope s0 ≤ 0.009490986 :=
        envelope_interval s0 0.05859375 0.0625 0.25001 0.009490986 (by linarith)
          (by linarith) (by norm_num) (by norm_num) (by norm_num) (by norm_num)
      have e1 : noiseEnvelope s1 ≤ 0.001143533 :=
        envelope_interval s1 0.286425 0.30205 0.5496 0.001143533 (by linarith)
          (by linarith) (by norm_num) (by norm_num) (by norm_num) (by norm_num)
      have e2 : noiseEnvelope s2 ≤ 0.000871341 :=
        envelope_split s2 0.30205 0.32205 0.5675 0.000871341 (by linarith)
          (by norm_num) (by norm_num) (by norm_num) (by norm_num) (by norm_num) (by norm_num)
      linarith [e0, e1, e2]
    ·
      have e0 : noiseEnvelope s0 ≤ 0.009490986 :=
        envelope_interval s0 0.05859375 0.0625 0.25001 0.009490986 (by linarith)
          (by linarith) (by norm_num) (by norm_num) (by norm_num) (by norm_num)
      have e1 : noiseEnvelope s1 ≤ 0.000871341 :=
        envelope_split s1 0.30205 0.32205 0.5675 0.000871341 (by linarith)
          (by norm_num) (by norm_num) (by norm_num) (by norm_num) (by norm_num) (by norm_num)
      have e2 : noiseEnvelope s2 ≤ 0.000871341 :=
        envelope_split s2 0.30205 0.32205 0.5675 0.000871341 (by linarith)
          (by norm_num) (by norm_num) (by norm_num) (by norm_num) (by norm_num) (by norm_num)
      linarith [e0, e1, e2]

set_option maxHeartbeats 1600000 in
theorem envSum_cell7 (s0 s1 s2 : ℝ) (_h01 : s0 ≤ s1) (_h12 : s1 ≤ s2)
    (hp : 0.3333 ≤ s0 + s1) (ht : 0.6666 ≤ s0 + s1 + s2)
    (hl0 : 0.0625 ≤ s0) (hu0 : s0 ≤ 0.06640625) :
    noiseEnvelope s0 + noiseEnvelope s1 + noiseEnvelope s2 ≤ 0.01168 := by
  rcases le_total s1 0.28251875 with hu1 | hl1_1
  ·
    have e0 : noiseEnvelope s0 ≤ 0.009441189 :=
      envelope_interval s0 0.0625 0.06640625 0.2577 0.009441189 (by linarith)
        (by linarith) (by norm_num) (by norm_num) (by norm_num) (by norm_num)
    have e1 : noiseEnvelope s1 ≤ 0.001569436 :=
      envelope_interval s1 0.26689375 0.28251875 0.53153 0.001569436 (by linarith)
        (by linarith) (by norm_num) (by norm_num) (by norm_num) (by norm_num)
    have e2 : noiseEnvelope s2 ≤ 0.000632569 :=
      envelope_split s2 0.317675 0.327675 0.57243 0.000632569 (by linarith)
        (by norm_num) (by norm_num) (by norm_num) (by norm_num) (by norm_num) (by norm_num)
    linarith [e0, e1, e2]
  ·
    rcases le_total s1 0.29814375 with hu1 | hl1_2
    ·
      have e0 : noiseEnvelope s0 ≤ 0.009441189 :=
        envelope_interval s0 0.0625 0.06640625 0.2577 0.009441189 (by linarith)
          (by linarith) (by norm_num) (by norm_num) (by norm_num) (by norm_num)
      have e1 : noiseEnvelope s1 ≤ 0.00122153 :=
        envelope_interval s1 0.28251875 0.29814375 0.54603 0.00122153 (by linarith)
          (by linarith) (by norm_num) (by norm_num) (by norm_num) (by norm_num)
      have e2 : noiseEnvelope s2 ≤ 0.000871341 :=
        envelope_split s2 0.30205 0.32205 0.5675 0.000871341 (by linarith)
          (by norm_num) (by norm_num) (by norm_num) (by norm_num) (by norm_num) (by norm_num)
      linarith [e0, e1, e2]
    ·
      have e0 : noiseEnvelope s0 ≤ 0.009441189 :=
        envelope_interval s0 0.0625 0.06640625 0.2577 0.009441189 (by linarith)
          (by linarith) (by norm_num) (by norm_num) (by norm_num) (by norm_num)
      have e1 : noiseEnvelope s1 ≤ 0.000936454 :=
        envelope_split s1 0.29814375 0.31814375 0.56405 0.000936454 (by linarith)
          (by norm_num) (by norm_num) (by norm_num) (by norm_num) (by norm_num) (by norm_num)
      have e2 : noiseEnvelope s2 ≤ 0.000936454 :=
        envelope_split s2 0.29814375 0.31814375 0.56405 0.000936454 (by linarith)
          (by norm_num) (by norm_num) (by norm_num) (by norm_num) (by norm_num) (by norm_num)
      linarith [e0, e1, e2]

set_option maxHeartbeats 1600000 in
theorem envSum_cell8 (s0 s1 s2 : ℝ) (_h01 : s0 ≤ s1) (_h12 : s1 ≤ s2)
    (hp : 0.3333 ≤ s0 + s1) (ht : 0.6666 ≤ s0 + s1 + s2)
    (hl0 : 0.06640625 ≤ s0) (hu0 : s0 ≤ 0.0703125) :
    noiseEnvelope s0 + noiseEnvelope s1 + noiseEnvelope s2 ≤ 0.01168 := by
  rcases le_total s1 0.2786125 with hu1 | hl1_1
  ·
    have e0 : noiseEnvelope s0 ≤ 0.009372522 :=
      envelope_interval s0 0.06640625 0.0703125 0.26517 0.009372522 (by linarith)
        (by linarith) (by norm_num) (by norm_num) (by norm_num) (by norm_num)
    have e1 : noiseEnvelope s1 ≤ 0.001665664 :=
      envelope_interval s1 0.2629875 0.2786125 0.52784 0.001665664 (by linarith)
        (by linarith) (by norm_num) (by norm_num) (by norm_num) (by norm_num)
    have e2 : noiseEnvelope s2 ≤ 0.000632569 :=
      envelope_split s2 0.317675 0.327675 0.57243 0.000632569 (by linarith)
        (by norm_num) (by norm_num) (by norm_num) (by norm_num) (by norm_num) (by norm_num)
    linarith [e0, e1, e2]
  ·
    rcases le_total s1 0.2942375 with hu1 | hl1_2
    ·
      have e0 : noiseEnvelope s0 ≤ 0.009372522 :=
        envelope_interval s0 0.06640625 0.0703125 0.26517 0.009372522 (by linarith)
          (by linarith) (by norm_num) (by norm_num) (by norm_num) (by norm_num)
      have e1 : noiseEnvelope s1 ≤ 0.00130306 :=
        envelope_interval s1 0.2786125 0.2942375 0.54244 0.00130306 (by linarith)
          (by linarith) (by norm_num) (by norm_num) (by norm_num) (by norm_num)
      have e2 : noiseEnvelope s2 ≤ 0.000871341 :=
        envelope_split s2 0.30205 0.32205 0.5675 0.000871341 (by linarith)
          (by norm_num) (by norm_num) (by norm_num) (by norm_num) (by norm_num) (by norm_num)
      linarith [e0, e1, e2]
    ·
      have e0 : noiseEnvelope s0 ≤ 0.009372522 :=
        envelope_interval s0 0.06640625 0.0703125 0.26517 0.009372522 (by linarith)
          (by linarith) (by norm_num) (by norm_num) (by norm_num) (by norm_num)
      have e1 : noiseEnvelope s1 ≤ 0.001004836 :=
        envelope_split s1 0.2942375 0.3142375 0.56057 0.001004836 (by linarith)
          (by norm_num) (by norm_num) (by norm_num) (by norm_num) (by norm_num) (by norm_num)
      have e2 : noiseEnvelope s2 ≤ 0.001004836 :=
        envelope_split s2 0.2942375 0.3142375 0.56057 0.001004836 (by linarith)
          (by norm_num) (by norm_num) (by norm_num) (by norm_num) (by norm_num) (by norm_num)
      linarith [e0, e1, e2]

set_option maxHeartbeats 1600000 in
theorem envSum_cell9 (s0 s1 s2 : ℝ) (_h01 : s0 ≤ s1) (_h12 : s1 ≤ s2)
    (hp : 0.3333 ≤ s0 + s1) (ht : 0.6666 ≤ s0 + s1 + s2)
    (hl0 : 0.0703125 ≤ s0) (hu0 : s0 ≤ 0.07421875) :
    noiseEnvelope s0 + noiseEnvelope s1 + noiseEnvelope s2 ≤ 0.01168 := by
  rcases le_total s1 0.26689375 with hu1 | hl1_1
  ·
    have e0 : noiseEnvelope s0 ≤ 0.009287135 :=
      envelope_interval s0 0.0703125 0.07421875 0.27244 0.009287135 (by linarith)
        (by linarith) (by norm_num) (by norm_num) (by norm_num) (by norm_num)
    have e1 : noiseEnvelope s1 ≤ 0.001740419 :=
      envelope_interval s1 0.25908125 0.26689375 0.51662 0.001740419 (by linarith)
        (by linarith) (by norm_num) (by norm_num) (by norm_num) (by norm_num)
    have e2 : noiseEnvelope s2 ≤ 0.000537217 :=
      envelope_split s2 0.3254875 0.3354875 0.57922 0.000537217 (by linarith)
        (by norm_num) (by norm_num) (by norm_num) (by norm_num) (by norm_num) (by norm_num)
    linarith [e0, e1, e2]
  ·
    rcases le_total s1 0.28251875 with hu1 | hl1_2
    ·
      have e0 : noiseEnvelope s0 ≤ 0.009287135 :=
        envelope_interval s0 0.0703125 0.07421875 0.27244 0.009287135 (by linarith)
          (by linarith) (by norm_num) (by norm_num) (by norm_num) (by norm_num)
      have e1 : noiseEnvelope s1 ≤ 0.001569436 :=
        envelope_interval s1 0.26689375 0.28251875 0.53153 0.001569436 (by linarith)
          (by linarith) (by norm_num) (by norm_num) (by norm_num) (by norm_num)
      have e2 : noiseEnvelope s2 ≤ 0.000744567 :=
        envelope_split s2 0.3098625 0.3198625 0.56557 0.000744567 (by linarith)
          (by norm_num) (by norm_num) (by norm_num) (by norm_num) (by norm_num) (by norm_num)
      linarith [e0, e1, e2]
    ·
      rcases le_total s1 0.29814375 with hu1 | hl1_3
      ·
        have e0 : noiseEnvelope s0 ≤ 0.009287135 :=
          envelope_interval s0 0.0703125 0.07421875 0.27244 0.009287135 (by linarith)
            (by linarith) (by norm_num) (by norm_num) (by norm_num) (by norm_num)
        have e1 : noiseEnvelope s1 ≤ 0.00122153 :=
          envelope_interval s1 0.28251875 0.29814375 0.54603 0.00122153 (by linarith)
            (by linarith) (by norm_num) (by norm_num) (by norm_num) (by norm_num)
        have e2 : noiseEnvelope s2 ≤ 0.001004836 :=
          envelope_split s2 0.2942375 0.3142375 0.56057 0.001004836 (by linarith)
            (by norm_num) (by norm_num) (by norm_num) (by norm_num) (by norm_num) (by norm_num)
        linarith [e0, e1, e2]
      ·
        have e0 : noiseEnvelope s0 ≤ 0.009287135 :=
          envelope_interval s0 0.0703125 0.07421875 0.27244 0.009287135 (by linarith)
            (by linarith) (by norm_num) (by norm_num) (by norm_num) (by norm_num)
        have e1 : noiseEnvelope s1 ≤ 0.000936454 :=
          envelope_split s1 0.29814375 0.31814375 0.56405 0.000936454 (by linarith)
            (by norm_num) (by norm_num) (by norm_num) (by norm_num) (by norm_num) (by norm_num)
        have e2 : noiseEnvelope s2 ≤ 0.000936454 :=
          envelope_split s2 0.29814375 0.31814375 0.56405 0.000936454 (by linarith)
            (by norm_num) (by norm_num) (by norm_num) (by norm_num) (by norm_num) (by norm_num)
        linarith [e0, e1, e2]

set_option maxHeartbeats 1600000 in
theorem envSum_cell10 (s0 s1 s2 : ℝ) (_h01 : s0 ≤ s1) (_h12 : s1 ≤ s2)
    (hp : 0.3333 ≤ s0 + s1) (ht : 0.6666 ≤ s0 + s1 + s2)
    (hl0 : 0.07421875 ≤ s0) (hu0 : s0 ≤ 0.078125) :
    noiseEnvelope s0 + noiseEnvelope s1 + noiseEnvelope s2 ≤ 0.01168 := by
  rcases le_total s1 0.2629875 with hu1 | hl1_1
  ·
    have e0 : noiseEnvelope s0 ≤ 0.009186361 :=
      envelope_interval s0 0.07421875 0.078125 0.27951 0.009186361 (by linarith)
        (by linarith) (by norm_num) (by norm_num) (by norm_num) (by norm_num)
    have e1 : noiseEnvelope s1 ≤ 0.001842454 :=
      envelope_interval s1 0.255175 0.2629875 0.51283 0.001842454 (by linarith)
        (by linarith) (by norm_num) (by norm_num) (by norm_num) (by norm_num)
    have e2 : noiseEnvelope s2 ≤ 0.000537217 :=
      envelope_split s2 0.3254875 0.3354875 0.57922 0.000537217 (by linarith)
        (by norm_num) (by norm_num) (by norm_num) (by norm_num) (by norm_num) (by norm_num)
    linarith [e0, e1, e2]
  ·
    rcases le_total s1 0.2786125 with hu1 | hl1_2
    ·
      have e0 : noiseEnvelope s0 ≤ 0.009186361 :=
        envelope_interval s0 0.07421875 0.078125 0.27951 0.009186361 (by linarith)
          (by linarith) (by norm_num) (by norm_num) (by norm_num) (by norm_num)
      have e1 : noiseEnvelope s1 ≤ 0.001665664 :=
        envelope_interval s1 0.2629875 0.2786125 0.52784 0.001665664 (by linarith)
          (by linarith) (by norm_num) (by norm_num) (by norm_num) (by norm_num)
      have e2 : noiseEnvelope s2 ≤ 0.000744567 :=
        envelope_split s2 0.3098625 0.3198625 0.56557 0.000744567 (by linarith)
          (by norm_num) (by norm_num) (by norm_num) (by norm_num) (by norm_num) (by norm_num)
      linarith [e0, e1, e2]
    ·
      rcases le_total s1 0.2942375 with hu1 | hl1_3
      ·
        have e0 : noiseEnvelope s0 ≤ 0.009186361 :=
          envelope_interval s0 0.07421875 0.078125 0.27951 0.009186361 (by linarith)
            (by linarith) (by norm_num) (by norm_num) (by norm_num) (by norm_num)
        have e1 : noiseEnvelope s1 ≤ 0.00130306 :=
          envelope_interval s1 0.2786125 0.2942375 0.54244 0.00130306 (by linarith)
            (by linarith) (by norm_num) (by norm_num) (by norm_num) (by norm_num)
        have e2 : noiseEnvelope s2 ≤ 0.001004836 :=
          envelope_split s2 0.2942375 0.3142375 0.56057 0.001004836 (by linarith)
            (by norm_num) (by norm_num) (by norm_num) (by norm_num) (by norm_num) (by norm_num)
        linarith [e0, e1, e2]
      ·
        have e0 : noiseEnvelope s0 ≤ 0.009186361 :=
          envelope_interval s0 0.07421875 0.078125 0.27951 0.009186361 (by linarith)
            (by linarith) (by norm_num) (by norm_num) (by norm_num) (by norm_num)
        have e1 : noiseEnvelope s1 ≤ 0.001004836 :=
          envelope_split s1 0.2942375 0.3142375 0.56057 0.001004836 (by linarith)
            (by norm_num) (by norm_num) (by norm_num) (by norm_num) (by norm_num) (by norm_num)
        have e2 : noiseEnvelope s2 ≤ 0.001004836 :=
          envelope_split s2 0.2942375 0.3142375 0.56057 0.001004836 (by linarith)
            (by norm_num) (by norm_num) (by norm_num) (by norm_num) (by norm_num) (by norm_num)
        linarith [e0, e1, e2]

set_option maxHeartbeats 1600000 in
theorem envSum_cell11 (s0 s1 s2 : ℝ) (_h01 : s0 ≤ s1) (_h12 : s1 ≤ s2)
    (hp : 0.3333 ≤ s0 + s1) (ht : 0.6666 ≤ s0 + s1 + s2)
    (hl0 : 0.078125 ≤ s0) (hu0 : s0 ≤ 0.08203125) :
    noiseEnvelope s0 + noiseEnvelope s1 + noiseEnvelope s2 ≤ 0.01168 := by
  rcases le_total s1 0.25908125 with hu1 | hl1_1
  ·
    have e0 : noiseEnvelope s0 ≤ 0.009072741 :=
      envelope_interval s0 0.078125 0.08203125 0.28642 0.009072741 (by linarith)
        (by linarith) (by norm_num) (by norm_num) (by norm_num) (by norm_num)
    have e1 : noiseEnvelope s1 ≤ 0.001948264 :=
      envelope_interval s1 0.25126875 0.25908125 0.50901 0.001948264 (by linarith)
        (by linarith) (by norm_num) (by norm_num) (by norm_num) (by norm_num)
    have e2 : noiseEnvelope s2 ≤ 0.000537217 :=
      envelope_split s2 0.3254875 0.3354875 0.57922 0.000537217 (by linarith)
        (by norm_num) (by norm_num) (by norm_num) (by norm_num) (by norm_num) (by norm_num)
    linarith [e0, e1, e2]
  ·
    rcases le_total s1 0.27470625 with hu1 | hl1_2
    ·
      have e0 : noiseEnvelope s0 ≤ 0.009072741 :=
        envelope_interval s0 0.078125 0.08203125 0.28642 0.009072741 (by linarith)
          (by linarith) (by norm_num) (by norm_num) (by norm_num) (by norm_num)
      have e1 : noiseEnvelope s1 ≤ 0.001765719 :=
        envelope_interval s1 0.25908125 0.27470625 0.52413 0.001765719 (by linarith)
          (by linarith) (by norm_num) (by norm_num) (by norm_num) (by norm_num)
      have e2 : noiseEnvelope s2 ≤ 0.000744567 :=
        envelope_split s2 0.3098625 0.3198625 0.56557 0.000744567 (by linarith)
          (by norm_num) (by norm_num) (by norm_num) (by norm_num) (by norm_num) (by norm_num)
      linarith [e0, e1, e2]
    ·
      rcases le_total s1 0.29033125 with hu1 | hl1_3
      ·
        have e0 : noiseEnvelope s0 ≤ 0.009072741 :=
          envelope_interval s0 0.078125 0.08203125 0.28642 0.009072741 (by linarith)
            (by linarith) (by norm_num) (by norm_num) (by norm_num) (by norm_num)
        have e1 : noiseEnvelope s1 ≤ 0.001388189 :=
          envelope_interval s1 0.27470625 0.29033125 0.53883 0.001388189 (by linarith)
            (by linarith) (by norm_num) (by norm_num) (by norm_num) (by norm_num)
        have e2 : noiseEnvelope s2 ≤ 0.001004836 :=
          envelope_split s2 0.2942375 0.3142375 0.56057 0.001004836 (by linarith)
            (by norm_num) (by norm_num) (by norm_num) (by norm_num) (by norm_num) (by norm_num)
        linarith [e0, e1, e2]
      ·
        have e0 : noiseEnvelope s0 ≤ 0.009072741 :=
          envelope_interval s0 0.078125 0.08203125 0.28642 0.009072741 (by linarith)
            (by linarith) (by norm_num) (by norm_num) (by norm_num) (by norm_num)
        have e1 : noiseEnvelope s1 ≤ 0.001076596 :=
          envelope_split s1 0.29033125 0.31033125 0.55708 0.001076596 (by linarith)
            (by norm_num) (by norm_num) (by norm_num) (by norm_num) (by norm_num) (by norm_num)
        have e2 : noiseEnvelope s2 ≤ 0.001076596 :=
          envelope_split s2 0.29033125 0.31033125 0.55708 0.001076596 (by linarith)
            (by norm_num) (by norm_num) (by norm_num) (by norm_num) (by norm_num) (by norm_num)
        linarith [e0, e1, e2]

set_option maxHeartbeats 1600000 in
theorem envSum_cell12 (s0 s1 s2 : ℝ) (_h01 : s0 ≤ s1) (_h12 : s1 ≤ s2)
    (hp : 0.3333 ≤ s0 + s1) (ht : 0.6666 ≤ s0 + s1 + s2)
    (hl0 : 0.08203125 ≤ s0) (hu0 : s0 ≤ 0.0859375) :
    noiseEnvelope s0 + noiseEnvelope s1 + noiseEnvelope s2 ≤ 0.01168 := by
  rcases le_total s1 0.2629875 with hu1 | hl1_1
  ·
    have e0 : noiseEnvelope s0 ≤ 0.008947053 :=
      envelope_interval s0 0.08203125 0.0859375 0.29316 0.008947053 (by linarith)
        (by linarith) (by norm_num) (by norm_num) (by norm_num) (by norm_num)
    have e1 : noiseEnvelope s1 ≤ 0.002089127 :=
      envelope_interval s1 0.2473625 0.2629875 0.51283 0.002089127 (by linarith)
        (by linarith) (by norm_num) (by norm_num) (by norm_num) (by norm_num)
    have e2 : noiseEnvelope s2 ≤ 0.000632569 :=
      envelope_split s2 0.317675 0.327675 0.57243 0.000632569 (by linarith)
        (by norm_num) (by norm_num) (by norm_num) (by norm_num) (by norm_num) (by norm_num)
    linarith [e0, e1, e2]
  ·
    rcases le_total s1 0.2786125 with hu1 | hl1_2
    ·
      have e0 : noiseEnvelope s0 ≤ 0.008947053 :=
        envelope_interval s0 0.08203125 0.0859375 0.29316 0.008947053 (by linarith)
          (by linarith) (by norm_num) (by norm_num) (by norm_num) (by norm_num)
      have e1 : noiseEnvelope s1 ≤ 0.001665664 :=
        envelope_interval s1 0.2629875 0.2786125 0.52784 0.001665664 (by linarith)
          (by linarith) (by norm_num) (by norm_num) (by norm_num) (by norm_num)
      have e2 : noiseEnvelope s2 ≤ 0.000871341 :=
        envelope_split s2 0.30205 0.32205 0.5675 0.000871341 (by linarith)
          (by norm_num) (by norm_num) (by norm_num) (by norm_num) (by norm_num) (by norm_num)
      linarith [e0, e1, e2]
    ·
      have e0 : noiseEnvelope s0 ≤ 0.008947053 :=
        envelope_interval s0 0.08203125 0.0859375 0.29316 0.008947053 (by linarith)
          (by linarith) (by norm_num) (by norm_num) (by norm_num) (by norm_num)
      have e1 : noiseEnvelope s1 ≤ 0.001312716 :=
        envelope_split s1 0.2786125 0.2986125 0.54646 0.001312716 (by linarith)
          (by norm_num) (by norm_num) (by norm_num) (by norm_num) (by norm_num) (by norm_num)
      have e2 : noiseEnvelope s2 ≤ 0.001312716 :=
        envelope_split s2 0.2786125 0.2986125 0.54646 0.001312716 (by linarith)
          (by norm_num) (by norm_num) (by norm_num) (by norm_num) (by norm_num) (by norm_num)
      linarith [e0, e1, e2]

set_option maxHeartbeats 1600000 in
theorem envSum_cell13 (s0 s1 s2 : ℝ) (_h01 : s0 ≤ s1) (_h12 : s1 ≤ s2)
    (hp : 0.3333 ≤ s0 + s1) (ht : 0.6666 ≤ s0 + s1 + s2)
    (hl0 : 0.0859375 ≤ s0) (hu0 : s0 ≤ 0.08984375) :
    noiseEnvelope s0 + noiseEnvelope s1 + noiseEnvelope s2 ≤ 0.01168 := by
  rcases le_total s1 0.25908125 with hu1 | hl1_1
  ·
    have e0 : noiseEnvelope s0 ≤ 0.008810658 :=
      envelope_interval s0 0.0859375 0.08984375 0.29974 0.008810658 (by linarith)
        (by linarith) (by norm_num) (by norm_num) (by norm_num) (by norm_num)
    have e1 : noiseEnvelope s1 ≤ 0.002204815 :=
      envelope_interval s1 0.24345625 0.25908125 0.50901 0.002204815 (by linarith)
        (by linarith) (by norm_num) (by norm_num) (by norm_num) (by norm_num)
    have e2 : noiseEnvelope s2 ≤ 0.000632569 :=
      envelope_split s2 0.317675 0.327675 0.57243 0.000632569 (by linarith)
        (by norm_num) (by norm_num) (by norm_num) (by norm_num) (by norm_num) (by norm_num)
    linarith [e0, e1, e2]
  ·
    rcases le_total s1 0.27470625 with hu1 | hl1_2
    ·
      have e0 : noiseEnvelope s0 ≤ 0.008810658 :=
        envelope_interval s0 0.0859375 0.08984375 0.29974 0.008810658 (by linarith)
          (by linarith) (by norm_num) (by norm_num) (by norm_num) (by norm_num)
      have e1 : noiseEnvelope s1 ≤ 0.001765719 :=
        envelope_interval s1 0.25908125 0.27470625 0.52413 0.001765719 (by linarith)
          (by linarith) (by norm_num) (by norm_num) (by norm_num) (by norm_num)
      have e2 : noiseEnvelope s2 ≤ 0.000871341 :=
        envelope_split s2 0.30205 0.32205 0.5675 0.000871341 (by linarith)
          (by norm_num) (by norm_num) (by norm_num) (by norm_num) (by norm_num) (by norm_num)
      linarith [e0, e1, e2]
    ·
      have e0 : noiseEnvelope s0 ≤ 0.008810658 :=
        envelope_interval s0 0.0859375 0.08984375 0.29974 0.008810658 (by linarith)
          (by linarith) (by norm_num) (by norm_num) (by norm_num) (by norm_num)
      have e1 : noiseEnvelope s1 ≤ 0.001398597 :=
        envelope_split s1 0.27470625 0.29470625 0.54287 0.001398597 (by linarith)
          (by norm_num) (by norm_num) (by norm_num) (by norm_num) (by norm_num) (by norm_num)
      have e2 : noiseEnvelope s2 ≤ 0.001398597 :=
        envelope_split s2 0.27470625 0.29470625 0.54287 0.001398597 (by linarith)
          (by norm_num) (by norm_num) (by norm_num) (by norm_num) (by norm_num) (by norm_num)
      linarith [e0, e1, e2]

set_option maxHeartbeats 1600000 in
theorem envSum_cell14 (s0 s1 s2 : ℝ) (_h01 : s0 ≤ s1) (_h12 : s1 ≤ s2)
    (hp : 0.3333 ≤ s0 + s1) (ht : 0.6666 ≤ s0 + s1 + s2)
    (hl0 : 0.08984375 ≤ s0) (hu0 : s0 ≤ 0.09765625) :
    noiseEnvelope s0 + noiseEnvelope s1 + noiseEnvelope s2 ≤ 0.01168 := by
  rcases le_total s1 0.23613203125 with hu1 | hl1_1
  ·
    have e0 : noiseEnvelope s0 ≤ 0.008844255 :=
      envelope_interval s0 0.08984375 0.09765625 0.31251 0.008844255 (by linarith)
        (by linarith) (by norm_num) (by norm_num) (by norm_num) (by norm_num)
    have e1 : noiseEnvelope s1 ≤ 0.002373237 :=
      envelope_interval s1 0.23564375 0.23613203125 0.48594 0.002373237 (by linarith)
        (by linarith) (by norm_num) (by norm_num) (by norm_num) (by norm_num)
    have e2 : noiseEnvelope s2 ≤ 0.000457465 :=
      envelope_split s2 0.33281171875 0.34281171875 0.58551 0.000457465 (by linarith)
        (by norm_num) (by norm_num) (by norm_num) (by norm_num) (by norm_num) (by norm_num)
    linarith [e0, e1, e2]
  ·
    rcases le_total s1 0.23710859375 with hu1 | hl1_2
    ·
      have e0 : noiseEnvelope s0 ≤ 0.008844255 :=
        envelope_interval s0 0.08984375 0.09765625 0.31251 0.008844255 (by linarith)
          (by linarith) (by norm_num) (by norm_num) (by norm_num) (by norm_num)
      have e1 : noiseEnvelope s1 ≤ 0.002360599 :=
        envelope_interval s1 0.23613203125 0.23710859375 0.48694 0.002360599 (by linarith)
          (by linarith) (by norm_num) (by norm_num) (by norm_num) (by norm_num)
      have e2 : noiseEnvelope s2 ≤ 0.000467576 :=
        envelope_split s2 0.33183515625 0.34183515625 0.58467 0.000467576 (by linarith)
          (by norm_num) (by norm_num) (by norm_num) (by norm_num) (by norm_num) (by norm_num)
      linarith [e0, e1, e2]
    ·
      rcases le_total s1 0.23906171875 with hu1 | hl1_3
      ·
        have e0 : noiseEnvelope s0 ≤ 0.008844255 :=
          envelope_interval s0 0.08984375 0.09765625 0.31251 0.008844255 (by linarith)
            (by linarith) (by norm_num) (by norm_num) (by norm_num) (by norm_num)
        have e1 : noiseEnvelope s1 ≤ 0.0023354 :=
          envelope_interval s1 0.23710859375 0.23906171875 0.48894 0.0023354 (by linarith)
            (by linarith) (by norm_num) (by norm_num) (by norm_num) (by norm_num)
        have e2 : noiseEnvelope s2 ≤ 0.000488281 :=
          envelope_split s2 0.32988203125 0.33988203125 0.583 0.000488281 (by linarith)
            (by norm_num) (by norm_num) (by norm_num) (by norm_num) (by norm_num) (by norm_num)
        linarith [e0, e1, e2]
      ·
        rcases le_total s1 0.24296796875 with hu1 | hl1_4
        ·
          have e0 : noiseEnvelope s0 ≤ 0.008844255 :=
            envelope_interval s0 0.08984375 0.09765625 0.31251 0.008844255 (by linarith)
              (by linarith) (by norm_num) (by norm_num) (by norm_num) (by norm_num)
          have e1 : noiseEnvelope s1 ≤ 0.002285218 :=
            envelope_interval s1 0.23906171875 0.24296796875 0.49292 0.002285218 (by linarith)
              (by linarith) (by norm_num) (by norm_num) (by norm_num) (by norm_num)
          have e2 : noiseEnvelope s2 ≤ 0.000531615 :=
            envelope_split s2 0.32597578125 0.33597578125 0.57964 0.000531615 (by linarith)
              (by norm_num) (by norm_num) (by norm_num) (by norm_num) (by norm_num) (by norm_num)
          linarith [e0, e1, e2]
        ·
          rcases le_total s1 0.25078046875 with hu1 | hl1_5
          ·
            have e0 : noiseEnvelope s0 ≤ 0.008844255 :=
              envelope_interval s0 0.08984375 0.09765625 0.31251 0.008844255 (by linarith)
                (by linarith) (by norm_num) (by norm_num) (by norm_num) (by norm_num)
            have e1 : noiseEnvelope s1 ≤ 0.002185728 :=
              envelope_interval s1 0.24296796875 0.25078046875 0.50078 0.002185728 (by linarith)
                (by linarith) (by norm_num) (by norm_num) (by norm_num) (by norm_num)
            have e2 : noiseEnvelope s2 ≤ 0.00062629 :=
              envelope_split s2 0.31816328125 0.32816328125 0.57286 0.00062629 (by linarith)
                (by norm_num) (by norm_num) (by norm_num) (by norm_num) (by norm_num) (by norm_num)
            linarith [e0, e1, e2]
          ·
            rcases le_total s1 0.25859296875 with hu1 | hl1_6
            ·
              have e0 : noiseEnvelope s0 ≤ 0.008844255 :=
                envelope_interval s0 0.08984375 0.09765625 0.31251 0.008844255 (by linarith)
                  (by linarith) (by norm_num) (by norm_num) (by norm_num) (by norm_num)
              have e1 : noiseEnvelope s1 ≤ 0.001961756 :=
                envelope_interval s1 0.25078046875 0.25859296875 0.50853 0.001961756 (by linarith)
                  (by linarith) (by norm_num) (by norm_num) (by norm_num) (by norm_num)
              have e2 : noiseEnvelope s2 ≤ 0.000736527 :=
                envelope_split s2 0.31035078125 0.32035078125 0.566 0.000736527 (by linarith)
                  (by norm_num) (by norm_num) (by norm_num) (by norm_num) (by norm_num) (by norm_num)
              linarith [e0, e1, e2]
            ·
              rcases le_total s1 0.27421796875 with hu1 | hl1_7
              ·
                have e0 : noiseEnvelope s0 ≤ 0.008844255 :=
                  envelope_interval s0 0.08984375 0.09765625 0.31251 0.008844255 (by linarith)
                    (by linarith) (by norm_num) (by norm_num) (by norm_num) (by norm_num)
                have e1 : noiseEnvelope s1 ≤ 0.001778481 :=
                  envelope_interval s1 0.25859296875 0.27421796875 0.52366 0.001778481 (by linarith)
                    (by linarith) (by norm_num) (by norm_num) (by norm_num) (by norm_num)
                have e2 : noiseEnvelope s2 ≤ 0.000996113 :=
                  envelope_split s2 0.29472578125 0.31472578125 0.56101 0.000996113 (by linarith)
                    (by norm_num) (by norm_num) (by norm_num) (by norm_num) (by norm_num) (by norm_num)
                linarith [e0, e1, e2]
              ·
                have e0 : noiseEnvelope s0 ≤ 0.008844255 :=
                  envelope_interval s0 0.08984375 0.09765625 0.31251 0.008844255 (by linarith)
                    (by linarith) (by norm_num) (by norm_num) (by norm_num) (by norm_num)
                have e1 : noiseEnvelope s1 ≤ 0.001409592 :=
                  envelope_split s1 0.27421796875 0.29421796875 0.54242 0.001409592 (by linarith)
                    (by norm_num) (by norm_num) (by norm_num) (by norm_num) (by norm_num) (by norm_num)
                have e2 : noiseEnvelope s2 ≤ 0.001409592 :=
                  envelope_split s2 0.27421796875 0.29421796875 0.54242 0.001409592 (by linarith)
                    (by norm_num) (by norm_num) (by norm_num) (by norm_num) (by norm_num) (by norm_num)
                linarith [e0, e1, e2]

set_option maxHeartbeats 1600000 in
theorem envSum_cell15 (s0 s1 s2 : ℝ) (_h01 : s0 ≤ s1) (_h12 : s1 ≤ s2)
    (hp : 0.3333 ≤ s0 + s1) (ht : 0.6666 ≤ s0 + s1 + s2)
    (hl0 : 0.09765625 ≤ s0) (hu0 : s0 ≤ 0.10546875) :
    noiseEnvelope s0 + noiseEnvelope s1 + noiseEnvelope s2 ≤ 0.01168 := by
  rcases le_total s1 0.2317375 with hu1 | hl1_1
  ·
    have e0 : noiseEnvelope s0 ≤ 0.008510432 :=
      envelope_interval s0 0.09765625 0.10546875 0.32476 0.008510432 (by linarith)
        (by linarith) (by norm_num) (by norm_num) (by norm_num) (by norm_num)
    have e1 : noiseEnvelope s1 ≤ 0.002641552 :=
      envelope_interval s1 0.22783125 0.2317375 0.4814 0.002641552 (by linarith)
        (by linarith) (by norm_num) (by norm_num) (by norm_num) (by norm_num)
    have e2 : noiseEnvelope s2 ≤ 0.000493555 :=
      envelope_split s2 0.32939375 0.33939375 0.58258 0.000493555 (by linarith)
        (by norm_num) (by norm_num) (by norm_num) (by norm_num) (by norm_num) (by norm_num)
    linarith [e0, e1, e2]
  ·
    rcases le_total s1 0.23955 with hu1 | hl1_2
    ·
      have e0 : noiseEnvelope s0 ≤ 0.008510432 :=
        envelope_interval s0 0.09765625 0.10546875 0.32476 0.008510432 (by linarith)
          (by linarith) (by norm_num) (by norm_num) (by norm_num) (by norm_num)
      have e1 : noiseEnvelope s1 ≤ 0.002534775 :=
        envelope_interval s1 0.2317375 0.23955 0.48944 0.002534775 (by linarith)
          (by linarith) (by norm_num) (by norm_num) (by norm_num) (by norm_num)
      have e2 : noiseEnvelope s2 ≤ 0.000583531 :=
        envelope_split s2 0.32158125 0.33158125 0.57584 0.000583531 (by linarith)
          (by norm_num) (by norm_num) (by norm_num) (by norm_num) (by norm_num) (by norm_num)
      linarith [e0, e1, e2]
    ·
      rcases le_total s1 0.255175 with hu1 | hl1_3
      ·
        have e0 : noiseEnvelope s0 ≤ 0.008510432 :=
          envelope_interval s0 0.09765625 0.10546875 0.32476 0.008510432 (by linarith)
            (by linarith) (by norm_num) (by norm_num) (by norm_num) (by norm_num)
        have e1 : noiseEnvelope s1 ≤ 0.002324438 :=
          envelope_interval s1 0.23955 0.255175 0.50515 0.002324438 (by linarith)
            (by linarith) (by norm_num) (by norm_num) (by norm_num) (by norm_num)
        have e2 : noiseEnvelope s2 ≤ 0.000809435 :=
          envelope_split s2 0.30595625 0.32595625 0.57093 0.000809435 (by linarith)
            (by norm_num) (by norm_num) (by norm_num) (by norm_num) (by norm_num) (by norm_num)
        linarith [e0, e1, e2]
      ·
        rcases le_total s1 0.2708 with hu1 | hl1_4
        ·
          have e0 : noiseEnvelope s0 ≤ 0.008510432 :=
            envelope_interval s0 0.09765625 0.10546875 0.32476 0.008510432 (by linarith)
              (by linarith) (by norm_num) (by norm_num) (by norm_num) (by norm_num)
          have e1 : noiseEnvelope s1 ≤ 0.001869615 :=
            envelope_interval s1 0.255175 0.2708 0.52039 0.001869615 (by linarith)
              (by linarith) (by norm_num) (by norm_num) (by norm_num) (by norm_num)
          have e2 : noiseEnvelope s2 ≤ 0.001076596 :=
            envelope_split s2 0.29033125 0.31033125 0.55708 0.001076596 (by linarith)
              (by norm_num) (by norm_num) (by norm_num) (by norm_num) (by norm_num) (by norm_num)
          linarith [e0, e1, e2]
        ·
          have e0 : noiseEnvelope s0 ≤ 0.008510432 :=
            envelope_interval s0 0.09765625 0.10546875 0.32476 0.008510432 (by linarith)
              (by linarith) (by norm_num) (by norm_num) (by norm_num) (by norm_num)
          have e1 : noiseEnvelope s1 ≤ 0.001488185 :=
            envelope_split s1 0.2708 0.2908 0.53926 0.001488185 (by linarith)
              (by norm_num) (by norm_num) (by norm_num) (by norm_num) (by norm_num) (by norm_num)
          have e2 : noiseEnvelope s2 ≤ 0.001488185 :=
            envelope_split s2 0.2708 0.2908 0.53926 0.001488185 (by linarith)
              (by norm_num) (by norm_num) (by norm_num) (by norm_num) (by norm_num) (by norm_num)
          linarith [e0, e1, e2]

set_option maxHeartbeats 1600000 in
theorem envSum_cell16 (s0 s1 s2 : ℝ) (_h01 : s0 ≤ s1) (_h12 : s1 ≤ s2)
    (hp : 0.3333 ≤ s0 + s1) (ht : 0.6666 ≤ s0 + s1 + s2)
    (hl0 : 0.10546875 ≤ s0) (hu0 : s0 ≤ 0.11328125) :
    noiseEnvelope s0 + noiseEnvelope s1 + noiseEnvelope s2 ≤ 0.01168 := by
  rcases le_total s1 0.22783125 with hu1 | hl1_1
  ·
    have e0 : noiseEnvelope s0 ≤ 0.008154812 :=
      envelope_interval s0 0.10546875 0.11328125 0.33658 0.008154812 (by linarith)
        (by linarith) (by norm_num) (by norm_num) (by norm_num) (by norm_num)
    have e1 : noiseEnvelope s1 ≤ 0.002933091 :=
      envelope_interval s1 0.22001875 0.22783125 0.47732 0.002933091 (by linarith)
        (by linarith) (by norm_num) (by norm_num) (by norm_num) (by norm_num)
    have e2 : noiseEnvelope s2 ≤ 0.000537217 :=
      envelope_split s2 0.3254875 0.3354875 0.57922 0.000537217 (by linarith)
        (by norm_num) (by norm_num) (by norm_num) (by norm_num) (by norm_num) (by norm_num)
    linarith [e0, e1, e2]
  ·
    rcases le_total s1 0.24345625 with hu1 | hl1_2
    ·
      have e0 : noiseEnvelope s0 ≤ 0.008154812 :=
        envelope_interval s0 0.10546875 0.11328125 0.33658 0.008154812 (by linarith)
          (by linarith) (by norm_num) (by norm_num) (by norm_num) (by norm_num)
      have e1 : noiseEnvelope s1 ≤ 0.002707509 :=
        envelope_interval s1 0.22783125 0.24345625 0.49342 0.002707509 (by linarith)
          (by linarith) (by norm_num) (by norm_num) (by norm_num) (by norm_num)
      have e2 : noiseEnvelope s2 ≤ 0.000744567 :=
        envelope_split s2 0.3098625 0.3198625 0.56557 0.000744567 (by linarith)
          (by norm_num) (by norm_num) (by norm_num) (by norm_num) (by norm_num) (by norm_num)
      linarith [e0, e1, e2]
    ·
      rcases le_total s1 0.25908125 with hu1 | hl1_3
      ·
        have e0 : noiseEnvelope s0 ≤ 0.008154812 :=
          envelope_interval s0 0.10546875 0.11328125 0.33658 0.008154812 (by linarith)
            (by linarith) (by norm_num) (by norm_num) (by norm_num) (by norm_num)
        have e1 : noiseEnvelope s1 ≤ 0.002204815 :=
          envelope_interval s1 0.24345625 0.25908125 0.50901 0.002204815 (by linarith)
            (by linarith) (by norm_num) (by norm_num) (by norm_num) (by norm_num)
        have e2 : noiseEnvelope s2 ≤ 0.001004836 :=
          envelope_split s2 0.2942375 0.3142375 0.56057 0.001004836 (by linarith)
            (by norm_num) (by norm_num) (by norm_num) (by norm_num) (by norm_num) (by norm_num)
        linarith [e0, e1, e2]
      ·
        rcases le_total s1 0.29033125 with hu1 | hl1_4
        ·
          have e0 : noiseEnvelope s0 ≤ 0.008154812 :=
            envelope_interval s0 0.10546875 0.11328125 0.33658 0.008154812 (by linarith)
              (by linarith) (by norm_num) (by norm_num) (by norm_num) (by norm_num)
          have e1 : noiseEnvelope s1 ≤ 0.001815241 :=
            envelope_interval s1 0.25908125 0.29033125 0.53883 0.001815241 (by linarith)
              (by linarith) (by norm_num) (by norm_num) (by norm_num) (by norm_num)
          have e2 : noiseEnvelope s2 ≤ 0.001678697 :=
            envelope_split s2 0.2629875 0.2829875 0.53197 0.001678697 (by linarith)
              (by norm_num) (by norm_num) (by norm_num) (by norm_num) (by norm_num) (by norm_num)
          linarith [e0, e1, e2]
        ·
          have e0 : noiseEnvelope s0 ≤ 0.008154812 :=
            envelope_interval s0 0.10546875 0.11328125 0.33658 0.008154812 (by linarith)
              (by linarith) (by norm_num) (by norm_num) (by norm_num) (by norm_num)
          have e1 : noiseEnvelope s1 ≤ 0.001076596 :=
            envelope_split s1 0.29033125 0.31033125 0.55708 0.001076596 (by linarith)
              (by norm_num) (by norm_num) (by norm_num) (by norm_num) (by norm_num) (by norm_num)
          have e2 : noiseEnvelope s2 ≤ 0.001076596 :=
            envelope_split s2 0.29033125 0.31033125 0.55708 0.001076596 (by linarith)
              (by norm_num) (by norm_num) (by norm_num) (by norm_num) (by norm_num) (by norm_num)
          linarith [e0, e1, e2]

set_option maxHeartbeats 1600000 in
theorem envSum_cell17 (s0 s1 s2 : ℝ) (_h01 : s0 ≤ s1) (_h12 : s1 ≤ s2)
    (hp : 0.3333 ≤ s0 + s1) (ht : 0.6666 ≤ s0 + s1 + s2)
    (hl0 : 0.11328125 ≤ s0) (hu0 : s0 ≤ 0.12109375) :
    noiseEnvelope s0 + noiseEnvelope s1 + noiseEnvelope s2 ≤ 0.01168 := by
  rcases le_total s1 0.22001875 with hu1 | hl1_1
  ·
    have e0 : noiseEnvelope s0 ≤ 0.007783012 :=
      envelope_interval s0 0.11328125 0.12109375 0.34799 0.007783012 (by linarith)
        (by linarith) (by norm_num) (by norm_num) (by norm_num) (by norm_num)
    have e1 : noiseEnvelope s1 ≤ 0.00321783 :=
      envelope_interval s1 0.21220625 0.22001875 0.46907 0.00321783 (by linarith)
        (by linarith) (by norm_num) (by norm_num) (by norm_num) (by norm_num)
    have e2 : noiseEnvelope s2 ≤ 0.000537217 :=
      envelope_split s2 0.3254875 0.3354875 0.57922 0.000537217 (by linarith)
        (by norm_num) (by norm_num) (by norm_num) (by norm_num) (by norm_num) (by norm_num)
    linarith [e0, e1, e2]
  ·
    rcases le_total s1 0.23564375 with hu1 | hl1_2
    ·
      have e0 : noiseEnvelope s0 ≤ 0.007783012 :=
        envelope_interval s0 0.11328125 0.12109375 0.34799 0.007783012 (by linarith)
          (by linarith) (by norm_num) (by norm_num) (by norm_num) (by norm_num)
      have e1 : noiseEnvelope s1 ≤ 0.002982987 :=
        envelope_interval s1 0.22001875 0.23564375 0.48544 0.002982987 (by linarith)
          (by linarith) (by norm_num) (by norm_num) (by norm_num) (by norm_num)
      have e2 : noiseEnvelope s2 ≤ 0.000744567 :=
        envelope_split s2 0.3098625 0.3198625 0.56557 0.000744567 (by linarith)
          (by norm_num) (by norm_num) (by norm_num) (by norm_num) (by norm_num) (by norm_num)
      linarith [e0, e1, e2]
    ·
      rcases le_total s1 0.26689375 with hu1 | hl1_3
      ·
        have e0 : noiseEnvelope s0 ≤ 0.007783012 :=
          envelope_interval s0 0.11328125 0.12109375 0.34799 0.007783012 (by linarith)
            (by linarith) (by norm_num) (by norm_num) (by norm_num) (by norm_num)
        have e1 : noiseEnvelope s1 ≤ 0.002523072 :=
          envelope_interval s1 0.23564375 0.26689375 0.51662 0.002523072 (by linarith)
            (by linarith) (by norm_num) (by norm_num) (by norm_num) (by norm_num)
        have e2 : noiseEnvelope s2 ≤ 0.001312716 :=
          envelope_split s2 0.2786125 0.2986125 0.54646 0.001312716 (by linarith)
            (by norm_num) (by norm_num) (by norm_num) (by norm_num) (by norm_num) (by norm_num)
        linarith [e0, e1, e2]
      ·
        have e0 : noiseEnvelope s0 ≤ 0.007783012 :=
          envelope_interval s0 0.11328125 0.12109375 0.34799 0.007783012 (by linarith)
            (by linarith) (by norm_num) (by norm_num) (by norm_num) (by norm_num)
        have e1 : noiseEnvelope s1 ≤ 0.001581542 :=
          envelope_split s1 0.26689375 0.28689375 0.53563 0.001581542 (by linarith)
            (by norm_num) (by norm_num) (by norm_num) (by norm_num) (by norm_num) (by norm_num)
        have e2 : noiseEnvelope s2 ≤ 0.001581542 :=
          envelope_split s2 0.26689375 0.28689375 0.53563 0.001581542 (by linarith)
            (by norm_num) (by norm_num) (by norm_num) (by norm_num) (by norm_num) (by norm_num)
        linarith [e0, e1, e2]

set_option maxHeartbeats 1600000 in
theorem envSum_cell18 (s0 s1 s2 : ℝ) (_h01 : s0 ≤ s1) (_h12 : s1 ≤ s2)
    (hp : 0.3333 ≤ s0 + s1) (ht : 0.6666 ≤ s0 + s1 + s2)
    (hl0 : 0.12109375 ≤ s0) (hu0 : s0 ≤ 0.12890625) :
    noiseEnvelope s0 + noiseEnvelope s1 + noiseEnvelope s2 ≤ 0.01168 := by
  rcases le_total s1 0.22001875 with hu1 | hl1_1
  ·
    have e0 : noiseEnvelope s0 ≤ 0.007400651 :=
      envelope_interval s0 0.12109375 0.12890625 0.35904 0.007400651 (by linarith)
        (by linarith) (by norm_num) (by norm_num) (by norm_num) (by norm_num)
    have e1 : noiseEnvelope s1 ≤ 0.003581724 :=
      envelope_interval s1 0.20439375 0.22001875 0.46907 0.003581724 (by linarith)
        (by linarith) (by norm_num) (by norm_num) (by norm_num) (by norm_num)
    have e2 : noiseEnvelope s2 ≤ 0.000632569 :=
      envelope_split s2 0.317675 0.327675 0.57243 0.000632569 (by linarith)
        (by norm_num) (by norm_num) (by norm_num) (by norm_num) (by norm_num) (by norm_num)
    linarith [e0, e1, e2]
  ·
    rcases le_total s1 0.25126875 with hu1 | hl1_2
    ·
      have e0 : noiseEnvelope s0 ≤ 0.007400651 :=
        envelope_interval s0 0.12109375 0.12890625 0.35904 0.007400651 (by linarith)
          (by linarith) (by norm_num) (by norm_num) (by norm_num) (by norm_num)
      have e1 : noiseEnvelope s1 ≤ 0.003080261 :=
        envelope_interval s1 0.22001875 0.25126875 0.50127 0.003080261 (by linarith)
          (by linarith) (by norm_num) (by norm_num) (by norm_num) (by norm_num)
      have e2 : noiseEnvelope s2 ≤ 0.001151772 :=
        envelope_split s2 0.286425 0.306425 0.55356 0.001151772 (by linarith)
          (by norm_num) (by norm_num) (by norm_num) (by norm_num) (by norm_num) (by norm_num)
      linarith [e0, e1, e2]
    ·
      have e0 : noiseEnvelope s0 ≤ 0.007400651 :=
        envelope_interval s0 0.12109375 0.12890625 0.35904 0.007400651 (by linarith)
          (by linarith) (by norm_num) (by norm_num) (by norm_num) (by norm_num)
      have e1 : noiseEnvelope s1 ≤ 0.001993544 :=
        envelope_split s1 0.25126875 0.27126875 0.52084 0.001993544 (by linarith)
          (by norm_num) (by norm_num) (by norm_num) (by norm_num) (by norm_num) (by norm_num)
      have e2 : noiseEnvelope s2 ≤ 0.001993544 :=
        envelope_split s2 0.25126875 0.27126875 0.52084 0.001993544 (by linarith)
          (by norm_num) (by norm_num) (by norm_num) (by norm_num) (by norm_num) (by norm_num)
      linarith [e0, e1, e2]

set_option maxHeartbeats 1600000 in
theorem envSum_cell19 (s0 s1 s2 : ℝ) (_h01 : s0 ≤ s1) (_h12 : s1 ≤ s2)
    (hp : 0.3333 ≤ s0 + s1) (ht : 0.6666 ≤ s0 + s1 + s2)
    (hl0 : 0.12890625 ≤ s0) (hu0 : s0 ≤ 0.13671875) :
    noiseEnvelope s0 + noiseEnvelope s1 + noiseEnvelope s2 ≤ 0.01168 := by
  rcases le_total s1 0.21220625 with hu1 | hl1_1
  ·
    have e0 : noiseEnvelope s0 ≤ 0.007012204 :=
      envelope_interval s0 0.12890625 0.13671875 0.36976 0.007012204 (by linarith)
        (by linarith) (by norm_num) (by norm_num) (by norm_num) (by norm_num)
    have e1 : noiseEnvelope s1 ≤ 0.003904363 :=
      envelope_interval s1 0.19658125 0.21220625 0.46066 0.003904363 (by linarith)
        (by linarith) (by norm_num) (by norm_num) (by norm_num) (by norm_num)
    have e2 : noiseEnvelope s2 ≤ 0.000632569 :=
      envelope_split s2 0.317675 0.327675 0.57243 0.000632569 (by linarith)
        (by norm_num) (by norm_num) (by norm_num) (by norm_num) (by norm_num) (by norm_num)
    linarith [e0, e1, e2]
  ·
    rcases le_total s1 0.24345625 with hu1 | hl1_2
    ·
      have e0 : noiseEnvelope s0 ≤ 0.007012204 :=
        envelope_interval s0 0.12890625 0.13671875 0.36976 0.007012204 (by linarith)
          (by linarith) (by norm_num) (by norm_num) (by norm_num) (by norm_num)
      have e1 : noiseEnvelope s1 ≤ 0.003384872 :=
        envelope_interval s1 0.21220625 0.24345625 0.49342 0.003384872 (by linarith)
          (by linarith) (by norm_num) (by norm_num) (by norm_num) (by norm_num)
      have e2 : noiseEnvelope s2 ≤ 0.001151772 :=
        envelope_split s2 0.286425 0.306425 0.55356 0.001151772 (by linarith)
          (by norm_num) (by norm_num) (by norm_num) (by norm_num) (by norm_num) (by norm_num)
      linarith [e0, e1, e2]
    ·
      have e0 : noiseEnvelope s0 ≤ 0.007012204 :=
        envelope_interval s0 0.12890625 0.13671875 0.36976 0.007012204 (by linarith)
          (by linarith) (by norm_num) (by norm_num) (by norm_num) (by norm_num)
      have e1 : noiseEnvelope s1 ≤ 0.002223311 :=
        envelope_split s1 0.24345625 0.26345625 0.51328 0.002223311 (by linarith)
          (by norm_num) (by norm_num) (by norm_num) (by norm_num) (by norm_num) (by norm_num)
      have e2 : noiseEnvelope s2 ≤ 0.002223311 :=
        envelope_split s2 0.24345625 0.26345625 0.51328 0.002223311 (by linarith)
          (by norm_num) (by norm_num) (by norm_num) (by norm_num) (by norm_num) (by norm_num)
      linarith [e0, e1, e2]

set_option maxHeartbeats 1600000 in
theorem envSum_cell20 (s0 s1 s2 : ℝ) (_h01 : s0 ≤ s1) (_h12 : s1 ≤ s2)
    (hp : 0.3333 ≤ s0 + s1) (ht : 0.6666 ≤ s0 + s1 + s2)
    (hl0 : 0.13671875 ≤ s0) (hu0 : s0 ≤ 0.15234375) :
    noiseEnvelope s0 + noiseEnvelope s1 + noiseEnvelope s2 ≤ 0.01168 := by
  rcases le_total s1 0.18144453125 with hu1 | hl1_1
  ·
    have e0 : noiseEnvelope s0 ≤ 0.006798182 :=
      envelope_interval s0 0.13671875 0.15234375 0.39032 0.006798182 (by linarith)
        (by linarith) (by norm_num) (by norm_num) (by norm_num) (by norm_num)
    have e1 : noiseEnvelope s1 ≤ 0.004413468 :=
      envelope_interval s1 0.18095625 0.18144453125 0.42597 0.004413468 (by linarith)
        (by linarith) (by norm_num) (by norm_num) (by norm_num) (by norm_num)
    have e2 : noiseEnvelope s2 ≤ 0.000457465 :=
      envelope_split s2 0.33281171875 0.34281171875 0.58551 0.000457465 (by linarith)
        (by norm_num) (by norm_num) (by norm_num) (by norm_num) (by norm_num) (by norm_num)
    linarith [e0, e1, e2]
  ·
    rcases le_total s1 0.18242109375 with hu1 | hl1_2
    ·
      have e0 : noiseEnvelope s0 ≤ 0.006798182 :=
        envelope_interval s0 0.13671875 0.15234375 0.39032 0.006798182 (by linarith)
          (by linarith) (by norm_num) (by norm_num) (by norm_num) (by norm_num)
      have e1 : noiseEnvelope s1 ≤ 0.004398251 :=
        envelope_interval s1 0.18144453125 0.18242109375 0.42711 0.004398251 (by linarith)
          (by linarith) (by norm_num) (by norm_num) (by norm_num) (by norm_num)
      have e2 : noiseEnvelope s2 ≤ 0.000467576 :=
        envelope_split s2 0.33183515625 0.34183515625 0.58467 0.000467576 (by linarith)
          (by norm_num) (by norm_num) (by norm_num) (by norm_num) (by norm_num) (by norm_num)
      linarith [e0, e1, e2]
    ·
      rcases le_total s1 0.18437421875 with hu1 | hl1_3
      ·
        have e0 : noiseEnvelope s0 ≤ 0.006798182 :=
          envelope_interval s0 0.13671875 0.15234375 0.39032 0.006798182 (by linarith)
            (by linarith) (by norm_num) (by norm_num) (by norm_num) (by norm_num)
        have e1 : noiseEnvelope s1 ≤ 0.004367758 :=
          envelope_interval s1 0.18242109375 0.18437421875 0.42939 0.004367758 (by linarith)
            (by linarith) (by norm_num) (by norm_num) (by norm_num) (by norm_num)
        have e2 : noiseEnvelope s2 ≤ 0.000488281 :=
          envelope_split s2 0.32988203125 0.33988203125 0.583 0.000488281 (by linarith)
            (by norm_num) (by norm_num) (by norm_num) (by norm_num) (by norm_num) (by norm_num)
        linarith [e0, e1, e2]
      ·
        rcases le_total s1 0.18828046875 with hu1 | hl1_4
        ·
          have e0 : noiseEnvelope s0 ≤ 0.006798182 :=
            envelope_interval s0 0.13671875 0.15234375 0.39032 0.006798182 (by linarith)
              (by linarith) (by norm_num) (by norm_num) (by norm_num) (by norm_num)
          have e1 : noiseEnvelope s1 ≤ 0.004306254 :=
            envelope_interval s1 0.18437421875 0.18828046875 0.43392 0.004306254 (by linarith)
              (by linarith) (by norm_num) (by norm_num) (by norm_num) (by norm_num)
          have e2 : noiseEnvelope s2 ≤ 0.000531615 :=
            envelope_split s2 0.32597578125 0.33597578125 0.57964 0.000531615 (by linarith)
              (by norm_num) (by norm_num) (by norm_num) (by norm_num) (by norm_num) (by norm_num)
          linarith [e0, e1, e2]
        ·
          rcases le_total s1 0.19609296875 with hu1 | hl1_5
          ·
            have e0 : noiseEnvelope s0 ≤ 0.006798182 :=
              envelope_interval s0 0.13671875 0.15234375 0.39032 0.006798182 (by linarith)
                (by linarith) (by norm_num) (by norm_num) (by norm_num) (by norm_num)
            have e1 : noiseEnvelope s1 ≤ 0.004181125 :=
              envelope_interval s1 0.18828046875 0.19609296875 0.44283 0.004181125 (by linarith)
                (by linarith) (by norm_num) (by norm_num) (by norm_num) (by norm_num)
            have e2 : noiseEnvelope s2 ≤ 0.00062629 :=
              envelope_split s2 0.31816328125 0.32816328125 0.57286 0.00062629 (by linarith)
                (by norm_num) (by norm_num) (by norm_num) (by norm_num) (by norm_num) (by norm_num)
            linarith [e0, e1, e2]
          ·
            rcases le_total s1 0.21171796875 with hu1 | hl1_6
            ·
              have e0 : noiseEnvelope s0 ≤ 0.006798182 :=
                envelope_interval s0 0.13671875 0.15234375 0.39032 0.006798182 (by linarith)
                  (by linarith) (by norm_num) (by norm_num) (by norm_num) (by norm_num)
              have e1 : noiseEnvelope s1 ≤ 0.003925036 :=
                envelope_interval s1 0.19609296875 0.21171796875 0.46013 0.003925036 (by linarith)
                  (by linarith) (by norm_num) (by norm_num) (by norm_num) (by norm_num)
              have e2 : noiseEnvelope s2 ≤ 0.000863429 :=
                envelope_split s2 0.30253828125 0.32253828125 0.56793 0.000863429 (by linarith)
                  (by norm_num) (by norm_num) (by norm_num) (by norm_num) (by norm_num) (by norm_num)
              linarith [e0, e1, e2]
            ·
              rcases le_total s1 0.24296796875 with hu1 | hl1_7
              ·
                have e0 : noiseEnvelope s0 ≤ 0.006798182 :=
                  envelope_interval s0 0.13671875 0.15234375 0.39032 0.006798182 (by linarith)
                    (by linarith) (by norm_num) (by norm_num) (by norm_num) (by norm_num)
                have e1 : noiseEnvelope s1 ≤ 0.003404449 :=
                  envelope_interval s1 0.21171796875 0.24296796875 0.49292 0.003404449 (by linarith)
                    (by linarith) (by norm_num) (by norm_num) (by norm_num) (by norm_num)
                have e2 : noiseEnvelope s2 ≤ 0.001476802 :=
                  envelope_split s2 0.27128828125 0.29128828125 0.53972 0.001476802 (by linarith)
                    (by norm_num) (by norm_num) (by norm_num) (by norm_num) (by norm_num) (by norm_num)
                linarith [e0, e1, e2]
              ·
                have e0 : noiseEnvelope s0 ≤ 0.006798182 :=
                  envelope_interval s0 0.13671875 0.15234375 0.39032 0.006798182 (by linarith)
                    (by linarith) (by norm_num) (by norm_num) (by norm_num) (by norm_num)
                have e1 : noiseEnvelope s1 ≤ 0.002238234 :=
                  envelope_split s1 0.24296796875 0.26296796875 0.51281 0.002238234 (by linarith)
                    (by norm_num) (by norm_num) (by norm_num) (by norm_num) (by norm_num) (by norm_num)
                have e2 : noiseEnvelope s2 ≤ 0.002238234 :=
                  envelope_split s2 0.24296796875 0.26296796875 0.51281 0.002238234 (by linarith)
                    (by norm_num) (by norm_num) (by norm_num) (by norm_num) (by norm_num) (by norm_num)
                linarith [e0, e1, e2]

set_option maxHeartbeats 1600000 in
theorem envSum_cell21 (s0 s1 s2 : ℝ) (_h01 : s0 ≤ s1) (_h12 : s1 ≤ s2)
    (hp : 0.3333 ≤ s0 + s1) (ht : 0.6666 ≤ s0 + s1 + s2)
    (hl0 : 0.15234375 ≤ s0) (hu0 : s0 ≤ 0.16796875) :
    noiseEnvelope s0 + noiseEnvelope s1 + noiseEnvelope s2 ≤ 0.01168 := by
  rcases le_total s1 0.1692375 with hu1 | hl1_1
  ·
    have e0 : noiseEnvelope s0 ≤ 0.005987073 :=
      envelope_interval s0 0.15234375 0.16796875 0.40984 0.005987073 (by linarith)
        (by linarith) (by norm_num) (by norm_num) (by norm_num) (by norm_num)
    have e1 : noiseEnvelope s1 ≤ 0.005160769 :=
      envelope_interval s1 0.16533125 0.1692375 0.41139 0.005160769 (by linarith)
        (by linarith) (by norm_num) (by norm_num) (by norm_num) (by norm_num)
    have e2 : noiseEnvelope s2 ≤ 0.000493555 :=
      envelope_split s2 0.32939375 0.33939375 0.58258 0.000493555 (by linarith)
        (by norm_num) (by norm_num) (by norm_num) (by norm_num) (by norm_num) (by norm_num)
    linarith [e0, e1, e2]
  ·
    rcases le_total s1 0.17705 with hu1 | hl1_2
    ·
      have e0 : noiseEnvelope s0 ≤ 0.005987073 :=
        envelope_interval s0 0.15234375 0.16796875 0.40984 0.005987073 (by linarith)
          (by linarith) (by norm_num) (by norm_num) (by norm_num) (by norm_num)
      have e1 : noiseEnvelope s1 ≤ 0.0050364 :=
        envelope_interval s1 0.1692375 0.17705 0.42078 0.0050364 (by linarith)
          (by linarith) (by norm_num) (by norm_num) (by norm_num) (by norm_num)
      have e2 : noiseEnvelope s2 ≤ 0.000583531 :=
        envelope_split s2 0.32158125 0.33158125 0.57584 0.000583531 (by linarith)
          (by norm_num) (by norm_num) (by norm_num) (by norm_num) (by norm_num) (by norm_num)
      linarith [e0, e1, e2]
    ·
      rcases le_total s1 0.192675 with hu1 | hl1_3
      ·
        have e0 : noiseEnvelope s0 ≤ 0.005987073 :=
          envelope_interval s0 0.15234375 0.16796875 0.40984 0.005987073 (by linarith)
            (by linarith) (by norm_num) (by norm_num) (by norm_num) (by norm_num)
        have e1 : noiseEnvelope s1 ≤ 0.004774812 :=
          envelope_interval s1 0.17705 0.192675 0.43895 0.004774812 (by linarith)
            (by linarith) (by norm_num) (by norm_num) (by norm_num) (by norm_num)
        have e2 : noiseEnvelope s2 ≤ 0.000809435 :=
          envelope_split s2 0.30595625 0.32595625 0.57093 0.000809435 (by linarith)
            (by norm_num) (by norm_num) (by norm_num) (by norm_num) (by norm_num) (by norm_num)
        linarith [e0, e1, e2]
      ·
        rcases le_total s1 0.223925 with hu1 | hl1_4
        ·
          have e0 : noiseEnvelope s0 ≤ 0.005987073 :=
            envelope_interval s0 0.15234375 0.16796875 0.40984 0.005987073 (by linarith)
              (by linarith) (by norm_num) (by norm_num) (by norm_num) (by norm_num)
          have e1 : noiseEnvelope s1 ≤ 0.004221293 :=
            envelope_interval s1 0.192675 0.223925 0.47321 0.004221293 (by linarith)
              (by linarith) (by norm_num) (by norm_num) (by norm_num) (by norm_num)
          have e2 : noiseEnvelope s2 ≤ 0.001398597 :=
            envelope_split s2 0.27470625 0.29470625 0.54287 0.001398597 (by linarith)
              (by norm_num) (by norm_num) (by norm_num) (by norm_num) (by norm_num) (by norm_num)
          linarith [e0, e1, e2]
        ·
          rcases le_total s1 0.255175 with hu1 | hl1_5
          ·
            have e0 : noiseEnvelope s0 ≤ 0.005987073 :=
              envelope_interval s0 0.15234375 0.16796875 0.40984 0.005987073 (by linarith)
                (by linarith) (by norm_num) (by norm_num) (by norm_num) (by norm_num)
            have e1 : noiseEnvelope s1 ≤ 0.002934464 :=
              envelope_interval s1 0.223925 0.255175 0.50515 0.002934464 (by linarith)
                (by linarith) (by norm_num) (by norm_num) (by norm_num) (by norm_num)
            have e2 : noiseEnvelope s2 ≤ 0.002223311 :=
              envelope_split s2 0.24345625 0.26345625 0.51328 0.002223311 (by linarith)
                (by norm_num) (by norm_num) (by norm_num) (by norm_num) (by norm_num) (by norm_num)
            linarith [e0, e1, e2]
          ·
            have e0 : noiseEnvelope s0 ≤ 0.005987073 :=
              envelope_interval s0 0.15234375 0.16796875 0.40984 0.005987073 (by linarith)
                (by linarith) (by norm_num) (by norm_num) (by norm_num) (by norm_num)
            have e1 : noiseEnvelope s1 ≤ 0.001884668 :=
              envelope_split s1 0.255175 0.275175 0.52458 0.001884668 (by linarith)
                (by norm_num) (by norm_num) (by norm_num) (by norm_num) (by norm_num) (by norm_num)
            have e2 : noiseEnvelope s2 ≤ 0.001884668 :=
              envelope_split s2 0.255175 0.275175 0.52458 0.001884668 (by linarith)
                (by norm_num) (by norm_num) (by norm_num) (by norm_num) (by norm_num) (by norm_num)
            linarith [e0, e1, e2]

set_option maxHeartbeats 1600000 in
theorem envSum_cell22 (s0 s1 s2 : ℝ) (_h01 : s0 ≤ s1) (_h12 : s1 ≤ s2)
    (hp : 0.3333 ≤ s0 + s1) (ht : 0.6666 ≤ s0 + s1 + s2)
    (hl0 : 0.16796875 ≤ s0) (hu0 : s0 ≤ 0.19921875) :
    noiseEnvelope s0 + noiseEnvelope s1 + noiseEnvelope s2 ≤ 0.01168 := by
  rcases le_total s1 0.17578125 with hu1 | hl1_1
  ·
    have e0 : noiseEnvelope s0 ≤ 0.005424775 :=
      envelope_interval s0 0.16796875 0.19921875 0.44634 0.005424775 (by linarith)
        (by linarith) (by norm_num) (by norm_num) (by norm_num) (by norm_num)
    have e1 : noiseEnvelope s1 ≤ 0.005095768 :=
      envelope_interval s1 0.16796875 0.17578125 0.41927 0.005095768 (by linarith)
        (by linarith) (by norm_num) (by norm_num) (by norm_num) (by norm_num)
    have e2 : noiseEnvelope s2 ≤ 0.001052923 :=
      envelope_split s2 0.2916 0.3116 0.55822 0.001052923 (by linarith)
        (by norm_num) (by norm_num) (by norm_num) (by norm_num) (by norm_num) (by norm_num)
    linarith [e0, e1, e2]
  ·
    rcases le_total s1 0.19140625 with hu1 | hl1_2
    ·
      have e0 : noiseEnvelope s0 ≤ 0.005424775 :=
        envelope_interval s0 0.16796875 0.19921875 0.44634 0.005424775 (by linarith)
          (by linarith) (by norm_num) (by norm_num) (by norm_num) (by norm_num)
      have e1 : noiseEnvelope s1 ≤ 0.004834377 :=
        envelope_interval s1 0.17578125 0.19140625 0.43751 0.004834377 (by linarith)
          (by linarith) (by norm_num) (by norm_num) (by norm_num) (by norm_num)
      have e2 : noiseEnvelope s2 ≤ 0.001370304 :=
        envelope_split s2 0.275975 0.295975 0.54404 0.001370304 (by linarith)
          (by norm_num) (by norm_num) (by norm_num) (by norm_num) (by norm_num) (by norm_num)
      linarith [e0, e1, e2]
    ·
      rcases le_total s1 0.20703125 with hu1 | hl1_3
      ·
        have e0 : noiseEnvelope s0 ≤ 0.005424775 :=
          envelope_interval s0 0.16796875 0.19921875 0.44634 0.005424775 (by linarith)
            (by linarith) (by norm_num) (by norm_num) (by norm_num) (by norm_num)
        have e1 : noiseEnvelope s1 ≤ 0.004126383 :=
          envelope_interval s1 0.19140625 0.20703125 0.45501 0.004126383 (by linarith)
            (by linarith) (by norm_num) (by norm_num) (by norm_num) (by norm_num)
        have e2 : noiseEnvelope s2 ≤ 0.001746496 :=
          envelope_split s2 0.26035 0.28035 0.52949 0.001746496 (by linarith)
            (by norm_num) (by norm_num) (by norm_num) (by norm_num) (by norm_num) (by norm_num)
        linarith [e0, e1, e2]
      ·
        rcases le_total s1 0.22265625 with hu1 | hl1_4
        ·
          have e0 : noiseEnvelope s0 ≤ 0.005424775 :=
            envelope_interval s0 0.16796875 0.19921875 0.44634 0.005424775 (by linarith)
              (by linarith) (by norm_num) (by norm_num) (by norm_num) (by norm_num)
          have e1 : noiseEnvelope s1 ≤ 0.003476223 :=
            envelope_interval s1 0.20703125 0.22265625 0.47187 0.003476223 (by linarith)
              (by linarith) (by norm_num) (by norm_num) (by norm_num) (by norm_num)
          have e2 : noiseEnvelope s2 ≤ 0.00218492 :=
            envelope_split s2 0.244725 0.264725 0.51452 0.00218492 (by linarith)
              (by norm_num) (by norm_num) (by norm_num) (by norm_num) (by norm_num) (by norm_num)
          linarith [e0, e1, e2]
        ·
          have e0 : noiseEnvelope s0 ≤ 0.005424775 :=
            envelope_interval s0 0.16796875 0.19921875 0.44634 0.005424775 (by linarith)
              (by linarith) (by norm_num) (by norm_num) (by norm_num) (by norm_num)
          have e1 : noiseEnvelope s1 ≤ 0.002973989 :=
            envelope_split s1 0.22265625 0.25265625 0.50265 0.002973989 (by linarith)
              (by norm_num) (by norm_num) (by norm_num) (by norm_num) (by norm_num) (by norm_num)
          have e2 : noiseEnvelope s2 ≤ 0.002973989 :=
            envelope_split s2 0.22265625 0.25265625 0.50265 0.002973989 (by linarith)
              (by norm_num) (by norm_num) (by norm_num) (by norm_num) (by norm_num) (by norm_num)
          linarith [e0, e1, e2]

set_option maxHeartbeats 1600000 in
theorem envSum_cell23 (s0 s1 s2 : ℝ) (_h01 : s0 ≤ s1) (_h12 : s1 ≤ s2)
    (hp : 0.3333 ≤ s0 + s1) (ht : 0.6666 ≤ s0 + s1 + s2)
    (hl0 : 0.19921875 ≤ s0) (hu0 : s0 ≤ 0.25) :
    noiseEnvelope s0 + noiseEnvelope s1 + noiseEnvelope s2 ≤ 0.01168 := by
  rcases le_total s1 0.20703125 with hu1 | hl1_1
  ·
    have e0 : noiseEnvelope s0 ≤ 0.004092435 :=
      envelope_interval s0 0.19921875 0.25 0.50001 0.004092435 (by linarith)
        (by linarith) (by norm_num) (by norm_num) (by norm_num) (by norm_num)
    have e1 : noiseEnvelope s1 ≤ 0.003724123 :=
      envelope_interval s1 0.19921875 0.20703125 0.45501 0.003724123 (by linarith)
        (by linarith) (by norm_num) (by norm_num) (by norm_num) (by norm_num)
    have e2 : noiseEnvelope s2 ≤ 0.003482496 :=
      envelope_split s2 0.20956875 0.23956875 0.48946 0.003482496 (by linarith)
        (by norm_num) (by norm_num) (by norm_num) (by norm_num) (by norm_num) (by norm_num)
    linarith [e0, e1, e2]
  ·
    have e0 : noiseEnvelope s0 ≤ 0.004092435 :=
      envelope_interval s0 0.19921875 0.25 0.50001 0.004092435 (by linarith)
        (by linarith) (by norm_num) (by norm_num) (by norm_num) (by norm_num)
    have e1 : noiseEnvelope s1 ≤ 0.003586653 :=
      envelope_split s1 0.20703125 0.23703125 0.48686 0.003586653 (by linarith)
        (by norm_num) (by norm_num) (by norm_num) (by norm_num) (by norm_num) (by norm_num)
    have e2 : noiseEnvelope s2 ≤ 0.003586653 :=
      envelope_split s2 0.20703125 0.23703125 0.48686 0.003586653 (by linarith)
        (by norm_num) (by norm_num) (by norm_num) (by norm_num) (by norm_num) (by norm_num)
    linarith [e0, e1, e2]

set_option maxHeartbeats 800000 in
/-- Case analysis establishing the envelope-sum bound for sorted corner
distances under the simplex geometric constraints. -/
theorem envSum_sorted (s0 s1 s2 : ℝ) (h00 : 0 ≤ s0) (h01 : s0 ≤ s1)
    (h12 : s1 ≤ s2) (hp : 0.3333 ≤ s0 + s1) (ht : 0.6666 ≤ s0 + s1 + s2) :
    noiseEnvelope s0 + noiseEnvelope s1 + noiseEnvelope s2 ≤ 0.01168 := by
  rcases le_total s0 0.25 with hs0a | hs0a
  case inl =>
    rcases le_total s0 0.015625 with hu0 | hl0_1
    · exact envSum_cell0 s0 s1 s2 h01 h12 hp ht (by linarith) hu0
    ·
      rcases le_total s0 0.03125 with hu0 | hl0_2
      · exact envSum_cell1 s0 s1 s2 h01 h12 hp ht (by linarith) hu0
      ·
        rcases le_total s0 0.0390625 with hu0 | hl0_3
        · exact envSum_cell2 s0 s1 s2 h01 h12 hp ht (by linarith) hu0
        ·
          rcases le_total s0 0.046875 with hu0 | hl0_4
          · exact envSum_cell3 s0 s1 s2 h01 h12 hp ht (by linarith) hu0
          ·
            rcases le_total s0 0.0546875 with hu0 | hl0_5
            · exact envSum_cell4 s0 s1 s2 h01 h12 hp ht (by linarith) hu0
            ·
              rcases le_total s0 0.05859375 with hu0 | hl0_6
              · exact envSum_cell5 s0 s1 s2 h01 h12 hp ht (by linarith) hu0
              ·
                rcases le_total s0 0.0625 with hu0 | hl0_7
                · exact envSum_cell6 s0 s1 s2 h01 h12 hp ht (by linarith) hu0
                ·
                  rcases le_total s0 0.06640625 with hu0 | hl0_8
                  · exact envSum_cell7 s0 s1 s2 h01 h12 hp ht (by linarith) hu0
                  ·
                    rcases le_total s0 0.0703125 with hu0 | hl0_9
                    · exact envSum_cell8 s0 s1 s2 h01 h12 hp ht (by linarith) hu0
                    ·
                      rcases le_total s0 0.07421875 with hu0 | hl0_10
                      · exact envSum_cell9 s0 s1 s2 h01 h12 hp ht (by linarith) hu0
                      ·
                        rcases le_total s0 0.078125 with hu0 | hl0_11
                        · exact envSum_cell10 s0 s1 s2 h01 h12 hp ht (by linarith) hu0
                        ·
                          rcases le_total s0 0.08203125 with hu0 | hl0_12
                          · exact envSum_cell11 s0 s1 s2 h01 h12 hp ht (by linarith) hu0
                          ·
                            rcases le_total s0 0.0859375 with hu0 | hl0_13
                            · exact envSum_cell12 s0 s1 s2 h01 h12 hp ht (by linarith) hu0
                            ·
                              rcases le_total s0 0.08984375 with hu0 | hl0_14
                              · exact envSum_cell13 s0 s1 s2 h01 h12 hp ht (by linarith) hu0
                              ·
                                rcases le_total s0 0.09765625 with hu0 | hl0_15
                                · exact envSum_cell14 s0 s1 s2 h01 h12 hp ht (by linarith) hu0
                                ·
                                  rcases le_total s0 0.10546875 with hu0 | hl0_16
                                  · exact envSum_cell15 s0 s1 s2 h01 h12 hp ht (by linarith) hu0
                                  ·
                                    rcases le_total s0 0.11328125 with hu0 | hl0_17
                                    · exact envSum_cell16 s0 s1 s2 h01 h12 hp ht (by linarith) hu0
                                    ·
                                      rcases le_total s0 0.12109375 with hu0 | hl0_18
                                      · exact envSum_cell17 s0 s1 s2 h01 h12 hp ht (by linarith) hu0
                                      ·
                                        rcases le_total s0 0.12890625 with hu0 | hl0_19
                                        · exact envSum_cell18 s0 s1 s2 h01 h12 hp ht (by linarith) hu0
                                        ·
                                          rcases le_total s0 0.13671875 with hu0 | hl0_20
                                          · exact envSum_cell19 s0 s1 s2 h01 h12 hp ht (by linarith) hu0
                                          ·
                                            rcases le_total s0 0.15234375 with hu0 | hl0_21
                                            · exact envSum_cell20 s0 s1 s2 h01 h12 hp ht (by linarith) hu0
                                            ·
                                              rcases le_total s0 0.16796875 with hu0 | hl0_22
                                              · exact envSum_cell21 s0 s1 s2 h01 h12 hp ht (by linarith) hu0
                                              ·
                                                rcases le_total s0 0.19921875 with hu0 | hl0_23
                                                · exact envSum_cell22 s0 s1 s2 h01 h12 hp ht (by linarith) hu0
                                                ·
                                                  exact envSum_cell23 s0 s1 s2 h01 h12 hp ht (by linarith) hs0a
  case inr =>
    have e0 : noiseEnvelope s0 ≤ 0.002029766 :=
      envelope_split s0 0.25 0.27 0.51962 0.002029766 (by linarith)
        (by norm_num) (by norm_num) (by norm_num) (by norm_num) (by norm_num) (by norm_num)
    have e1 : noiseEnvelope s1 ≤ 0.002029766 :=
      envelope_split s1 0.25 0.27 0.51962 0.002029766 (by linarith)
        (by norm_num) (by norm_num) (by norm_num) (by norm_num) (by norm_num) (by norm_num)
    have e2 : noiseEnvelope s2 ≤ 0.002029766 :=
      envelope_split s2 0.25 0.27 0.51962 0.002029766 (by linarith)
        (by norm_num) (by norm_num) (by norm_num) (by norm_num) (by norm_num) (by norm_num)
    linarith [e0, e1, e2]

/-- The envelope-sum bound without the sortedness assumption. -/
theorem envSum_all (s0 s1 s2 : ℝ) (h0 : 0 ≤ s0) (h1 : 0 ≤ s1) (h2 : 0 ≤ s2)
    (p01 : 0.3333 ≤ s0 + s1) (p02 : 0.3333 ≤ s0 + s2) (p12 : 0.3333 ≤ s1 + s2)
    (tot : 0.6666 ≤ s0 + s1 + s2) :
    noiseEnvelope s0 + noiseEnvelope s1 + noiseEnvelope s2 ≤ 0.01168 := by
  rcases le_total s0 s1 with a | a <;> rcases le_total s1 s2 with b | b <;>
    rcases le_total s0 s2 with c | c
  · linarith [envSum_sorted s0 s1 s2 h0 a b (by linarith) (by linarith)]
  · linarith [envSum_sorted s0 s1 s2 h0 a b (by linarith) (by linarith)]
  · linarith [envSum_sorted s0 s2 s1 h0 c b (by linarith) (by linarith)]
  · linarith [envSum_sorted s2 s0 s1 h2 c a (by linarith) (by linarith)]
  · linarith [envSum_sorted s1 s0 s2 h1 a c (by linarith) (by linarith)]
  · linarith [envSum_sorted s1 s2 s0 h1 b c (by linarith) (by linarith)]
  · linarith [envSum_sorted s2 s1 s0 h2 b a (by linarith) (by linarith)]
  · linarith [envSum_sorted s2 s1 s0 h2 b a (by linarith) (by linarith)]

theorem g2f_bounds (z : ℝ) : -1 ≤ 2 * fract z - 1 ∧ 2 * fract z - 1 < 1 :=
  ⟨by linarith [fract_nonneg' z], by linarith [fract_lt_one' z]⟩

theorem sum3_glue (t0 t1 t2 e0 e1 e2 : ℝ)
    (h0 : |t0| ≤ 0.7898 * e0) (h1 : |t1| ≤ 0.7898 * e1) (h2 : |t2| ≤ 0.7898 * e2)
    (hs : e0 + e1 + e2 ≤ 0.01168) :
    |130 * (t0 + t1 + t2)| ≤ 1.2 := by
  rw [abs_mul, abs_of_pos (by norm_num : (0:ℝ) < 130)]
  have ha := abs_add (t0 + t1) t2
  have hb := abs_add t0 t1
  linarith [ha, hb, h0, h1, h2, hs]

set_option maxHeartbeats 8000000 in
/-- Core bound for `snoise`, stated in the exact shape of the unfolded
shader body: `X, Y` are the in-cell coordinates `x0`, `i1x/i1y` the
simplex-corner selector, and `g0,g1,g2` the per-corner gradient seeds in
`[-1, 1)`. -/
theorem snoise_core (X Y i1x i1y g0 g1 g2 : ℝ)
    (hi : i1x = 1 ∧ i1y = 0 ∨ i1x = 0 ∧ i1y = 1)
    (hg0 : -1 ≤ g0 ∧ g0 < 1) (hg1 : -1 ≤ g1 ∧ g1 < 1) (hg2 : -1 ≤ g2 ∧ g2 < 1) :
    |130 *
      (max (0.5 - (X * X + Y * Y)) 0 * max (0.5 - (X * X + Y * Y)) 0 *
        (max (0.5 - (X * X + Y * Y)) 0 * max (0.5 - (X * X + Y * Y)) 0) *
        (1.79284291400159 -
          0.85373472095314 *
            ((g0 - gfloor (g0 + 0.5)) * (g0 - gfloor (g0 + 0.5)) +
              (|g0| - 0.5) * (|g0| - 0.5))) *
        ((g0 - gfloor (g0 + 0.5)) * X + (|g0| - 0.5) * Y) +
       max (0.5 - ((X + 0.211324865405187 - i1x) * (X + 0.211324865405187 - i1x) +
            (Y + 0.211324865405187 - i1y) * (Y + 0.211324865405187 - i1y))) 0 *
        max (0.5 - ((X + 0.211324865405187 - i1x) * (X + 0.211324865405187 - i1x) +
            (Y + 0.211324865405187 - i1y) * (Y + 0.211324865405187 - i1y))) 0 *
        (max (0.5 - ((X + 0.211324865405187 - i1x) * (X + 0.211324865405187 - i1x) +
            (Y + 0.211324865405187 - i1y) * (Y + 0.211324865405187 - i1y))) 0 *
          max (0.5 - ((X + 0.211324865405187 - i1x) * (X + 0.211324865405187 - i1x) +
            (Y + 0.211324865405187 - i1y) * (Y + 0.211324865405187 - i1y))) 0) *
        (1.79284291400159 -
          0.85373472095314 *
            ((g1 - gfloor (g1 + 0.5)) * (g1 - gfloor (g1 + 0.5)) +
              (|g1| - 0.5) * (|g1| - 0.5))) *
        ((g1 - gfloor (g1 + 0.5)) * (X + 0.211324865405187 - i1x) +
          (|g1| - 0.5) * (Y + 0.211324865405187 - i1y)) +
       max (0.5 - ((X + -0.577350269189626) * (X + -0.577350269189626) +
            (Y + -0.577350269189626) * (Y + -0.577350269189626))) 0 *
        max (0.5 - ((X + -0.577350269189626) * (X + -0.577350269189626) +
            (Y + -0.577350269189626) * (Y + -0.577350269189626))) 0 *
        (max (0.5 - ((X + -0.577350269189626) * (X + -0.577350269189626) +
            (Y + -0.577350269189626) * (Y + -0.577350269189626))) 0 *
          max (0.5 - ((X + -0.577350269189626) * (X + -0.577350269189626) +
            (Y + -0.577350269189626) * (Y + -0.577350269189626))) 0) *
        (1.79284291400159 -
          0.85373472095314 *
            ((g2 - gfloor (g2 + 0.5)) * (g2 - gfloor (g2 + 0.5)) +
              (|g2| - 0.5) * (|g2| - 0.5))) *
        ((g2 - gfloor (g2 + 0.5)) * (X + -0.577350269189626) +
          (|g2| - 0.5) * (Y + -0.577350269189626)))| ≤ 1.2 := by
  set S0 := X * X + Y * Y with hS0
  set S1 := (X + 0.211324865405187 - i1x) * (X + 0.211324865405187 - i1x) +
    (Y + 0.211324865405187 - i1y) * (Y + 0.211324865405187 - i1y) with hS1
  set S2 := (X + -0.577350269189626) * (X + -0.577350269189626) +
    (Y + -0.577350269189626) * (Y + -0.577350269189626) with hS2
  set A0 := g0 - gfloor (g0 + 0.5) with hA0
  set H0 := |g0| - 0.5 with hH0
  set A1 := g1 - gfloor (g1 + 0.5) with hA1
  set H1 := |g1| - 0.5 with hH1
  set A2 := g2 - gfloor (g2 + 0.5) with hA2
  set H2 := |g2| - 0.5 with hH2
  set M0 := max (0.5 - S0) 0 with hM0
  set M1 := max (0.5 - S1) 0 with hM1
  set M2 := max (0.5 - S2) 0 with hM2
  have hq0 : A0 * A0 + H0 * H0 ≤ 1/4 := by
    rw [hA0, hH0]; exact grad_sumsq g0 hg0.1 hg0.2
  have hq1 : A1 * A1 + H1 * H1 ≤ 1/4 := by
    rw [hA1, hH1]; exact grad_sumsq g1 hg1.1 hg1.2
  have hq2 : A2 * A2 + H2 * H2 ≤ 1/4 := by
    rw [hA2, hH2]; exact grad_sumsq g2 hg2.1 hg2.2
  have hc0 : (1.79284291400159 - 0.85373472095314 * (A0 * A0 + H0 * H0)) *
      |A0 * X + H0 * Y| ≤ 0.7898 * Real.sqrt S0 := by
    rw [hS0]; exact corner_bound A0 H0 X Y hq0
  have hc1 : (1.79284291400159 - 0.85373472095314 * (A1 * A1 + H1 * H1)) *
      |A1 * (X + 0.211324865405187 - i1x) + H1 * (Y + 0.211324865405187 - i1y)| ≤
      0.7898 * Real.sqrt S1 := by
    rw [hS1]; exact corner_bound A1 H1 _ _ hq1
  have hc2 : (1.79284291400159 - 0.85373472095314 * (A2 * A2 + H2 * H2)) *
      |A2 * (X + -0.577350269189626) + H2 * (Y + -0.577350269189626)| ≤
      0.7898 * Real.sqrt S2 := by
    rw [hS2]; exact corner_bound A2 H2 _ _ hq2
  have hMn : 0 ≤ M0 ∧ 0 ≤ M1 ∧ 0 ≤ M2 :=
    ⟨by rw [hM0]; exact le_max_right _ _, by rw [hM1]; exact le_max_right _ _,
     by rw [hM2]; exact le_max_right _ _⟩
  have habs : ∀ M T S AA HH XX YY : ℝ, 0 ≤ M → 0 ≤ T →
      T * |AA * XX + HH * YY| ≤ 0.7898 * Real.sqrt S →
      M ^ 4 * Real.sqrt S = noiseEnvelope S →
      |M * M * (M * M) * T * (AA * XX + HH * YY)| ≤ 0.7898 * noiseEnvelope S := by
    intro M T S AA HH XX YY hM hT hc henv
    have hQ : 0 ≤ M * M * (M * M) := mul_nonneg (mul_nonneg hM hM) (mul_nonneg hM hM)
    rw [abs_mul, abs_mul, abs_of_nonneg hQ, abs_of_nonneg hT]
    calc M * M * (M * M) * T * |AA * XX + HH * YY|
        = M * M * (M * M) * (T * |AA * XX + HH * YY|) := by ring
      _ ≤ M * M * (M * M) * (0.7898 * Real.sqrt S) :=
          mul_le_mul_of_nonneg_left hc hQ
      _ = 0.7898 * (M ^ 4 * Real.sqrt S) := by ring
      _ = 0.7898 * noiseEnvelope S := by rw [henv]
  have hT0 : (0:ℝ) ≤ 1.79284291400159 - 0.85373472095314 * (A0 * A0 + H0 * H0) := by
    linarith [hq0]
  have hT1 : (0:ℝ) ≤ 1.79284291400159 - 0.85373472095314 * (A1 * A1 + H1 * H1) := by
    linarith [hq1]
  have hT2 : (0:ℝ) ≤ 1.79284291400159 - 0.85373472095314 * (A2 * A2 + H2 * H2) := by
    linarith [hq2]
  have henv0 : M0 ^ 4 * Real.sqrt S0 = noiseEnvelope S0 := by rw [hM0, noiseEnvelope]
  have henv1 : M1 ^ 4 * Real.sqrt S1 = noiseEnvelope S1 := by rw [hM1, noiseEnvelope]
  have henv2 : M2 ^ 4 * Real.sqrt S2 = noiseEnvelope S2 := by rw [hM2, noiseEnvelope]
  have habs0 := habs M0 _ S0 A0 H0 X Y hMn.1 hT0 hc0 henv0
  have habs1 := habs M1 _ S1 A1 H1 (X + 0.211324865405187 - i1x)
    (Y + 0.211324865405187 - i1y) hMn.2.1 hT1 hc1 henv1
  have habs2 := habs M2 _ S2 A2 H2 (X + -0.577350269189626)
    (Y + -0.577350269189626) hMn.2.2 hT2 hc2 henv2
  have hS0n : (0:ℝ) ≤ S0 := by
    rw [hS0]; exact add_nonneg (mul_self_nonneg X) (mul_self_nonneg Y)
  have hS1n : (0:ℝ) ≤ S1 := by
    rw [hS1]; exact add_nonneg (mul_self_nonneg _) (mul_self_nonneg _)
  have hS2n : (0:ℝ) ≤ S2 := by
    rw [hS2]; exact add_nonneg (mul_self_nonneg _) (mul_self_nonneg _)
  have hp01 : (0.3333:ℝ) ≤ S0 + S1 := by
    rw [hS0, hS1]
    rcases hi with ⟨e1, e2⟩ | ⟨e1, e2⟩ <;> rw [e1, e2]
    · have key : 2 * ((X * X + Y * Y) +
          ((X + 0.211324865405187 - 1) * (X + 0.211324865405187 - 1) +
           (Y + 0.211324865405187 - 0) * (Y + 0.211324865405187 - 0))) =
          (2*X - 0.788675134594813)^2 + (2*Y + 0.211324865405187)^2 +
          0.666666666666666802627373009938 := by ring
      linarith [key, sq_nonneg (2*X - 0.788675134594813),
        sq_nonneg (2*Y + 0.211324865405187)]
    · have key : 2 * ((X * X + Y * Y) +
          ((X + 0.211324865405187 - 0) * (X + 0.211324865405187 - 0) +
           (Y + 0.211324865405187 - 1) * (Y + 0.211324865405187 - 1))) =
          (2*X + 0.211324865405187)^2 + (2*Y - 0.788675134594813)^2 +
          0.666666666666666802627373009938 := by ring
      linarith [key, sq_nonneg (2*X + 0.211324865405187),
        sq_nonneg (2*Y - 0.788675134594813)]
  have hp02 : (0.3333:ℝ) ≤ S0 + S2 := by
    rw [hS0, hS2]
    have key : 2 * ((X * X + Y * Y) +
        ((X + -0.577350269189626) * (X + -0.577350269189626) +
         (Y + -0.577350269189626) * (Y + -0.577350269189626))) =
        (2*X - 0.577350269189626)^2 + (2*Y - 0.577350269189626)^2 +
        0.666666666666667210509492039752 := by ring
    linarith [key, sq_nonneg (2*X - 0.577350269189626),
      sq_nonneg (2*Y - 0.577350269189626)]
  have hp12 : (0.3333:ℝ) ≤ S1 + S2 := by
    rw [hS1, hS2]
    rcases hi with ⟨e1, e2⟩ | ⟨e1, e2⟩ <;> rw [e1, e2]
    · have key : 2 * (((X + 0.211324865405187 - 1) * (X + 0.211324865405187 - 1) +
           (Y + 0.211324865405187 - 0) * (Y + 0.211324865405187 - 0)) +
          ((X + -0.577350269189626) * (X + -0.577350269189626) +
           (Y + -0.577350269189626) * (Y + -0.577350269189626))) =
          (2*X - 1.366025403784439)^2 + (2*Y - 0.366025403784439)^2 +
          0.666666666666666802627373009938 := by ring
      linarith [key, sq_nonneg (2*X - 1.366025403784439),
        sq_nonneg (2*Y - 0.366025403784439)]
    · have key : 2 * (((X + 0.211324865405187 - 0) * (X + 0.211324865405187 - 0) +
           (Y + 0.211324865405187 - 1) * (Y + 0.211324865405187 - 1)) +
          ((X + -0.577350269189626) * (X + -0.577350269189626) +
           (Y + -0.577350269189626) * (Y + -0.577350269189626))) =
          (2*X - 0.366025403784439)^2 + (2*Y - 1.366025403784439)^2 +
          0.666666666666666802627373009938 := by ring
      linarith [key, sq_nonneg (2*X - 0.366025403784439),
        sq_nonneg (2*Y - 1.366025403784439)]
  have htot : (0.6666:ℝ) ≤ S0 + S1 + S2 := by
    rw [hS0, hS1, hS2]
    rcases hi with ⟨e1, e2⟩ | ⟨e1, e2⟩ <;> rw [e1, e2]
    · have key : 3 * ((X * X + Y * Y) +
          ((X + 0.211324865405187 - 1) * (X + 0.211324865405187 - 1) +
           (Y + 0.211324865405187 - 0) * (Y + 0.211324865405187 - 0)) +
          ((X + -0.577350269189626) * (X + -0.577350269189626) +
           (Y + -0.577350269189626) * (Y + -0.577350269189626))) =
          (3*X - 1.366025403784439)^2 + (3*Y - 0.366025403784439)^2 +
          2.000000000000000815764238059628 := by ring
      linarith [key, sq_nonneg (3*X - 1.366025403784439),
        sq_nonneg (3*Y - 0.366025403784439)]
    · have key : 3 * ((X * X + Y * Y) +
          ((X + 0.211324865405187 - 0) * (X + 0.211324865405187 - 0) +
           (Y + 0.211324865405187 - 1) * (Y + 0.211324865405187 - 1)) +
          ((X + -0.577350269189626) * (X + -0.577350269189626) +
           (Y + -0.577350269189626) * (Y + -0.577350269189626))) =
          (3*X - 0.366025403784439)^2 + (3*Y - 1.366025403784439)^2 +
          2.000000000000000815764238059628 := by ring
      linarith [key, sq_nonneg (3*X - 0.366025403784439),
        sq_nonneg (3*Y - 1.366025403784439)]
  have hsum := envSum_all S0 S1 S2 hS0n hS1n hS2n hp01 hp02 hp12 htot
  exact sum3_glue _ _ _ _ _ _ habs0 habs1 habs2 hsum

set_option maxHeartbeats 4000000 in
/-- The simplex noise of the liquid metal shader is bounded by 1.2 in
absolute value, for every input point. -/
theorem snoise_abs_le (v : Vec2) : |snoise v| ≤ 1.2 := by
  simp only [snoise]
  refine snoise_core _ _ _ _ _ _ _ ?_ (g2f_bounds _) (g2f_bounds _) (g2f_bounds _)
  split_ifs with h
  · exact Or.inl ⟨rfl, rfl⟩
  · exact Or.inr ⟨rfl, rfl⟩

/-- Claim C8: for every input point, the simplex noise `snoise` of
`liquidMetalShader` and the Perlin noise `perlinNoise` of
`sensorLiquidMetalShader` return values within `[-1.2, 1.2]`. -/
theorem noise_range (v p : Vec2) :
    snoise v ∈ Set.Icc (-1.2 : ℝ) 1.2 ∧ perlinNoise p ∈ Set.Icc (-1.2 : ℝ) 1.2 := by
  constructor
  · have h := abs_le.1 (snoise_abs_le v)
    exact ⟨h.1, h.2⟩
  · have h1 : |perlinNoise p| ≤ 1.2 :=
      le_trans (perlinNoise_abs_le p) (by norm_num)
    have h := abs_le.1 h1
    exact ⟨h.1, h.2⟩

end Quattro
